import Mathlib

/-!
Verification of the kart engine-analysis measurement-to-curve pipeline.

The first part embeds the rational-arithmetic modules (data filtering,
RPM binning, sensor-curve smoothing) over ℚ; a later part embeds the
modules that use π, exp and square roots (gear detection, the logger
power engine, air density, sensor calibration) over ℝ.
-/

set_option maxHeartbeats 1000000
set_option maxRecDepth 8000

namespace EngineAnalysis

/-! ## dataFiltering.ts -/

/-- average: mean of a list, 0 for the empty list. -/
def average (data : List ℚ) : ℚ :=
  if data.length = 0 then 0 else data.sum / data.length

/-- movingAverage: windowed mean with window clamped to the array bounds. -/
def movingAverage (data : List ℚ) (windowSize : ℕ) : List ℚ :=
  if windowSize < 1 ∨ data.length = 0 then data
  else
    let halfWindow := windowSize / 2
    (List.range data.length).map (fun i =>
      let start := max 0 (i - halfWindow)
      let stop := min data.length (i + halfWindow + 1)
      average ((data.drop start).take (stop - start)))

/-- SG_COEFFICIENTS: quadratic Savitzky-Golay coefficients for lengths 5, 7, 9. -/
def sgCoefficients (windowSize : ℕ) : Option (List ℚ) :=
  if windowSize = 5 then some ([-3, 12, 17, 12, -3].map (fun c => c / 35))
  else if windowSize = 7 then some ([-2, 3, 6, 7, 6, 3, -2].map (fun c => c / 21))
  else if windowSize = 9 then
    some ([-21, 14, 39, 54, 59, 54, 39, 14, -21].map (fun c => c / 231))
  else none

/-- savitzkyGolay: SG convolution with indices clamped to the array bounds
(falls back to movingAverage when no coefficients exist for the window). -/
def savitzkyGolay (data : List ℚ) (windowSize : ℕ := 5) : List ℚ :=
  if data.length = 0 then data
  else
    match sgCoefficients windowSize with
    | none => movingAverage data windowSize
    | some coefficients =>
      let halfWindow := windowSize / 2
      (List.range data.length).map (fun (i : ℕ) =>
        (List.range windowSize).foldl (fun acc (j : ℕ) =>
          let idx : ℤ := (i : ℤ) + (j : ℤ) - (halfWindow : ℤ)
          let boundedIdx := (max 0 (min ((data.length : ℤ) - 1) idx)).toNat
          acc + data.getD boundedIdx 0 * coefficients.getD j 0) 0)

/-- applyPowerFilter: the RPM-path smoothing ladder selected by filter level. -/
def applyPowerFilter (data : List ℚ) (filterLevel : ℚ) : List ℚ :=
  if filterLevel ≤ 0 then data
  else if filterLevel ≤ 25 then savitzkyGolay data 5
  else if filterLevel ≤ 50 then savitzkyGolay data 7
  else if filterLevel ≤ 75 then savitzkyGolay data 9
  else movingAverage (savitzkyGolay data 9) 5

/-! ## rpmBinning.ts -/

/-- PowerDataPoint: one accepted logger sample (rational-valued fields). -/
structure PowerDataPoint where
  rpm : ℚ
  speed : ℚ
  power : ℚ
  torque : ℚ
  gear : ℕ
  tempHead : ℚ
  tempCool : ℚ
  tempExhaust : ℚ
  lambda : ℚ
  lapIndex : ℕ
  timeIndex : ℕ
  deriving DecidableEq

/-- BinnedResult: the per-bin averages reported by the RPM binner. -/
structure BinnedResult where
  rpm : ℚ
  avgSpeed : ℚ
  avgPower : ℚ
  avgTorque : ℚ
  avgTempHead : ℚ
  avgTempCool : ℚ
  avgTempExhaust : ℚ
  avgLambda : ℚ
  sampleCount : ℕ
  deriving DecidableEq

/-- Models the JavaScript idiom x || 0 on a number x. -/
def jsOrZero (x : ℚ) : ℚ := if x = 0 then 0 else x

/-- Key of the bin a sample falls into: floor(rpm / binSize) * binSize. -/
def binKeyOf (binSize rpm : ℚ) : ℚ := (⌊rpm / binSize⌋ : ℤ) * binSize

/-- Append a sample to the group holding key, creating the group at the end
of the association list when absent (JavaScript Map insertion order). -/
def addToBins (key : ℚ) (p : PowerDataPoint) :
    List (ℚ × List PowerDataPoint) → List (ℚ × List PowerDataPoint)
  | [] => [(key, [p])]
  | (k, g) :: rest =>
    if k = key then (k, g ++ [p]) :: rest else (k, g) :: addToBins key p rest

/-- The grouping loop of binByRPM: drop samples outside [minRPM, maxRPM],
group the rest by bin key in insertion order (bins is the accumulator). -/
def groupIntoBinsGo (minRPM maxRPM binSize : ℚ) :
    List PowerDataPoint → List (ℚ × List PowerDataPoint) → List (ℚ × List PowerDataPoint)
  | [], bins => bins
  | r :: rest, bins =>
    groupIntoBinsGo minRPM maxRPM binSize rest
      (if r.rpm < minRPM ∨ maxRPM < r.rpm then bins
       else addToBins (binKeyOf binSize r.rpm) r bins)

/-- Group the accepted samples by bin key, starting from an empty map. -/
def groupIntoBins (results : List PowerDataPoint) (minRPM maxRPM binSize : ℚ) :
    List (ℚ × List PowerDataPoint) :=
  groupIntoBinsGo minRPM maxRPM binSize results []

/-- The per-bin averaging step of binByRPM. -/
def makeBin (binSize : ℚ) (entry : ℚ × List PowerDataPoint) : Option BinnedResult :=
  let samples := entry.2
  if samples.length < 1 then none
  else
    let avgPower := average (samples.map (·.power))
    if avgPower ≤ 0 then none
    else some
      { rpm := entry.1 + binSize / 2
        avgSpeed := average (samples.map (·.speed))
        avgPower := avgPower
        avgTorque := average (samples.map (·.torque))
        avgTempHead := jsOrZero (average ((samples.map (·.tempHead)).filter (fun t => 0 < t)))
        avgTempCool := jsOrZero (average ((samples.map (·.tempCool)).filter (fun t => 0 < t)))
        avgTempExhaust :=
          jsOrZero (average ((samples.map (·.tempExhaust)).filter (fun t => 0 < t)))
        avgLambda := jsOrZero (average ((samples.map (·.lambda)).filter (fun l => 0 < l)))
        sampleCount := samples.length }

/-- binByRPM: group into fixed-width RPM bins, average, drop empty or
non-positive-power bins, sort ascending by bin centre. -/
def binByRPM (results : List PowerDataPoint) (minRPM maxRPM : ℚ) (binSize : ℚ := 100) :
    List BinnedResult :=
  ((groupIntoBins results minRPM maxRPM binSize).filterMap (makeBin binSize)).insertionSort
    (fun a b => a.rpm ≤ b.rpm)

/-- The indexed map rebuilding the binned results from the two filtered
columns (results.map with index in the source). -/
def rebuildBins (filteredPower filteredTorque : List ℚ) :
    ℕ → List BinnedResult → List BinnedResult
  | _, [] => []
  | i, r :: rest =>
    { r with
      avgPower := filteredPower.getD i 0
      avgTorque := filteredTorque.getD i 0 } :: rebuildBins filteredPower filteredTorque (i + 1) rest

/-- filterBinnedResults: smooth the power and torque columns, leaving
every other column in place. -/
def filterBinnedResults (results : List BinnedResult) (filterLevel : ℚ) :
    List BinnedResult :=
  if results.length < 3 ∨ filterLevel ≤ 0 then results
  else
    let filteredPower := applyPowerFilter (results.map (·.avgPower)) filterLevel
    let filteredTorque := applyPowerFilter (results.map (·.avgTorque)) filterLevel
    rebuildBins filteredPower filteredTorque 0 results

/-! ## csvParser.ts (sensor-path speed curve smoothing) -/

/-- SpeedPowerPoint: one speed bin of the sensor-path power curve. -/
structure SpeedPowerPoint where
  speedKmh : ℚ
  speedMs : ℚ
  avgPower : ℚ
  avgPowerWatts : ℚ
  avgForwardAccel : ℚ
  sampleCount : ℕ
  deriving DecidableEq

/-- CV_TO_WATTS: one metric horsepower in watts. -/
def CV_TO_WATTS : ℚ := 735.5

/-- The indexed map rebuilding the sensor curve from the smoothed powers
(curve.map with index in the source), clamping at zero. -/
def rebuildCurve (finalSmoothed : List ℚ) : ℕ → List SpeedPowerPoint → List SpeedPowerPoint
  | _, [] => []
  | i, p :: rest =>
    { p with
      avgPower := max 0 (finalSmoothed.getD i 0)
      avgPowerWatts := max 0 (finalSmoothed.getD i 0 * CV_TO_WATTS) } ::
      rebuildCurve finalSmoothed (i + 1) rest

/-- applyFiltering: the sensor-path smoothing of the speed-binned power
curve (window by level, optional second pass, clamp at zero). -/
def applyFiltering (curve : List SpeedPowerPoint) (filterLevel : ℚ) :
    List SpeedPowerPoint :=
  if filterLevel ≤ 0 ∨ curve.length < 5 then curve
  else
    let powers := curve.map (·.avgPower)
    let windowSize : ℕ := if 75 < filterLevel then 9 else if 50 < filterLevel then 7 else 5
    let smoothed := savitzkyGolay powers windowSize
    let finalSmoothed := if 80 < filterLevel then savitzkyGolay smoothed 5 else smoothed
    rebuildCurve finalSmoothed 0 curve

/-! ## Helper lemmas: lengths and column preservation -/

lemma movingAverage_length (data : List ℚ) (w : ℕ) :
    (movingAverage data w).length = data.length := by
  unfold movingAverage
  split
  · rfl
  · simp

lemma savitzkyGolay_length (data : List ℚ) (w : ℕ) :
    (savitzkyGolay data w).length = data.length := by
  unfold savitzkyGolay
  split
  · rfl
  · cases h : sgCoefficients w
    · simp only [h]
      exact movingAverage_length data w
    · simp only [h]
      rw [List.length_map, List.length_range]

lemma applyPowerFilter_length (data : List ℚ) (L : ℚ) :
    (applyPowerFilter data L).length = data.length := by
  unfold applyPowerFilter
  split
  · rfl
  split
  · exact savitzkyGolay_length data 5
  split
  · exact savitzkyGolay_length data 7
  split
  · exact savitzkyGolay_length data 9
  · rw [movingAverage_length, savitzkyGolay_length]

lemma rebuildBins_length (fp ft : List ℚ) :
    ∀ (i : ℕ) (rs : List BinnedResult), (rebuildBins fp ft i rs).length = rs.length := by
  intro i rs
  induction rs generalizing i with
  | nil => rfl
  | cons r rest ih => simp [rebuildBins, ih]

lemma rebuildBins_map_eq {α : Type} (fp ft : List ℚ) (f : BinnedResult → α)
    (h : ∀ (r : BinnedResult) (p t : ℚ), f { r with avgPower := p, avgTorque := t } = f r) :
    ∀ (i : ℕ) (rs : List BinnedResult), (rebuildBins fp ft i rs).map f = rs.map f := by
  intro i rs
  induction rs generalizing i with
  | nil => rfl
  | cons r rest ih => simp [rebuildBins, ih, h]

lemma rebuildCurve_map_power (fs : List ℚ) :
    ∀ (rs : List SpeedPowerPoint) (i : ℕ), i + rs.length = fs.length →
      (rebuildCurve fs i rs).map (·.avgPower) = (fs.drop i).map (fun q => max 0 q) := by
  intro rs
  induction rs with
  | nil =>
    intro i h
    simp only [List.length_nil, Nat.add_zero] at h
    simp [rebuildCurve, List.drop_eq_nil_of_le (le_of_eq h.symm)]
  | cons r rest ih =>
    intro i h
    have hlen : i + (rest.length + 1) = fs.length := by simpa using h
    have hi : i < fs.length := by omega
    have hdrop : fs.drop i = fs[i] :: fs.drop (i + 1) := List.drop_eq_getElem_cons hi
    have hgetD : fs.getD i 0 = fs[i] := List.getD_eq_getElem fs 0 hi
    simp only [rebuildCurve, List.map_cons, hdrop, hgetD]
    exact congrArg (List.cons _) (ih (i + 1) (by omega))

/-! ## C7 and C10: smoothing-stage identity and frame conditions -/

/-- C7: running the smoothing stage with filter level 0 returns the binner
output unchanged, and any array of fewer than 3 bins is returned unchanged
at every filter level. -/
theorem filterBinnedResults_levelZero_identity :
    ∀ (xs : List PowerDataPoint) (mn mx L : ℚ) (rs : List BinnedResult),
      filterBinnedResults (binByRPM xs mn mx) 0 = binByRPM xs mn mx ∧
      (rs.length < 3 → filterBinnedResults rs L = rs) := by
  intro xs mn mx L rs
  constructor
  · unfold filterBinnedResults
    rw [if_pos (Or.inr le_rfl)]
  · intro h
    unfold filterBinnedResults
    rw [if_pos (Or.inl h)]

/-- C7 witness: the identity at filter level 0 and the short-array guard,
checked on concrete inputs. -/
theorem filterBinnedResults_levelZero_identity_witness :
    filterBinnedResults (binByRPM [] 100 200) 0 = binByRPM [] 100 200 ∧
    ([] : List BinnedResult).length < 3 ∧ filterBinnedResults [] 37 = [] :=
  ⟨(filterBinnedResults_levelZero_identity [] 100 200 37 []).1, by decide,
    (filterBinnedResults_levelZero_identity [] 100 200 37 []).2 (by decide)⟩

/-- C10: filterBinnedResults keeps the array length and every column except
avgPower and avgTorque (rpm centre, speed, temperatures, lambda, sample
count are element-for-element unchanged). -/
theorem filterBinnedResults_frame :
    ∀ (rs : List BinnedResult) (L : ℚ),
      (filterBinnedResults rs L).length = rs.length ∧
      (filterBinnedResults rs L).map (·.rpm) = rs.map (·.rpm) ∧
      (filterBinnedResults rs L).map (·.avgSpeed) = rs.map (·.avgSpeed) ∧
      (filterBinnedResults rs L).map (·.avgTempHead) = rs.map (·.avgTempHead) ∧
      (filterBinnedResults rs L).map (·.avgTempCool) = rs.map (·.avgTempCool) ∧
      (filterBinnedResults rs L).map (·.avgTempExhaust) = rs.map (·.avgTempExhaust) ∧
      (filterBinnedResults rs L).map (·.avgLambda) = rs.map (·.avgLambda) ∧
      (filterBinnedResults rs L).map (·.sampleCount) = rs.map (·.sampleCount) := by
  intro rs L
  unfold filterBinnedResults
  split
  · exact ⟨rfl, rfl, rfl, rfl, rfl, rfl, rfl, rfl⟩
  · refine ⟨rebuildBins_length _ _ _ _, ?_, ?_, ?_, ?_, ?_, ?_, ?_⟩ <;>
      · refine rebuildBins_map_eq _ _ _ ?_ 0 rs
        intro r p t
        rfl

/-! ## C3: sensor-path smoothing ladder -/

lemma rebuildCurve_map_power_zero (fs : List ℚ) (rs : List SpeedPowerPoint)
    (h : rs.length = fs.length) :
    (rebuildCurve fs 0 rs).map (·.avgPower) = fs.map (fun q => max 0 q) := by
  have := rebuildCurve_map_power fs rs 0 (by omega)
  simpa using this

lemma applyFiltering_eq (curve : List SpeedPowerPoint) (L : ℚ)
    (h0 : 0 < L) (h5 : 5 ≤ curve.length) :
    applyFiltering curve L =
      rebuildCurve
        (if 80 < L then
          savitzkyGolay
            (savitzkyGolay (curve.map (·.avgPower))
              (if 75 < L then 9 else if 50 < L then 7 else 5)) 5
        else
          savitzkyGolay (curve.map (·.avgPower))
            (if 75 < L then 9 else if 50 < L then 7 else 5)) 0 curve := by
  unfold applyFiltering
  rw [if_neg]
  simp only [not_or, not_le, not_lt]
  exact ⟨h0, h5⟩

/-- C3 (amended): the sensor-path smoothing applies SG length 5 for
0 < L ≤ 50, SG length 7 for 50 < L ≤ 75 and SG length 9 for L > 75 with no
moving-average pass, plus an additional SG length-5 second pass exactly when
L > 80, clamping the smoothed powers at zero. -/
theorem applyFiltering_windows :
    ∀ (curve : List SpeedPowerPoint) (L : ℚ), 5 ≤ curve.length →
      (0 < L → L ≤ 50 →
        (applyFiltering curve L).map (·.avgPower) =
          (savitzkyGolay (curve.map (·.avgPower)) 5).map (fun q => max 0 q)) ∧
      (50 < L → L ≤ 75 →
        (applyFiltering curve L).map (·.avgPower) =
          (savitzkyGolay (curve.map (·.avgPower)) 7).map (fun q => max 0 q)) ∧
      (75 < L → L ≤ 80 →
        (applyFiltering curve L).map (·.avgPower) =
          (savitzkyGolay (curve.map (·.avgPower)) 9).map (fun q => max 0 q)) ∧
      (80 < L →
        (applyFiltering curve L).map (·.avgPower) =
          (savitzkyGolay (savitzkyGolay (curve.map (·.avgPower)) 9) 5).map
            (fun q => max 0 q)) := by
  intro curve L h5
  refine ⟨fun h0 h50 => ?_, fun h50 h75 => ?_, fun h75 h80 => ?_, fun h80 => ?_⟩
  · rw [applyFiltering_eq curve L h0 h5,
      if_neg (by linarith : ¬(80 : ℚ) < L), if_neg (by linarith : ¬(75 : ℚ) < L),
      if_neg (by linarith : ¬(50 : ℚ) < L)]
    exact rebuildCurve_map_power_zero _ _ (by rw [savitzkyGolay_length, List.length_map])
  · rw [applyFiltering_eq curve L (by linarith) h5,
      if_neg (by linarith : ¬(80 : ℚ) < L), if_neg (by linarith : ¬(75 : ℚ) < L),
      if_pos h50]
    exact rebuildCurve_map_power_zero _ _ (by rw [savitzkyGolay_length, List.length_map])
  · rw [applyFiltering_eq curve L (by linarith) h5,
      if_neg (by linarith : ¬(80 : ℚ) < L), if_pos h75]
    exact rebuildCurve_map_power_zero _ _ (by rw [savitzkyGolay_length, List.length_map])
  · rw [applyFiltering_eq curve L (by linarith) h5, if_pos h80,
      if_pos (by linarith : (75 : ℚ) < L)]
    exact rebuildCurve_map_power_zero _ _
      (by rw [savitzkyGolay_length, savitzkyGolay_length, List.length_map])

/-- The concrete five-bin sensor curve used when checking claim C3. -/
def c3curve : List SpeedPowerPoint :=
  [⟨0, 0, 0, 0, 0, 0⟩, ⟨0, 0, 0, 0, 0, 0⟩, ⟨0, 0, 0, 0, 0, 0⟩, ⟨0, 0, 0, 0, 0, 0⟩,
    ⟨0, 0, 35, 0, 0, 0⟩]

/-- C3 counterexample: at filter level 40 (in the range 25 < L ≤ 50) the
sensor path applies SG length 5, not the RPM ladder's SG length 7: its
output matches the clamped SG-5 convolution and differs both from the
clamped SG-7 convolution and from the RPM-path filter output. -/
theorem applyFiltering_windows_counterexample :
    (applyFiltering c3curve 40).map (·.avgPower) =
      (savitzkyGolay (c3curve.map (·.avgPower)) 5).map (fun q => max 0 q) ∧
    (applyFiltering c3curve 40).map (·.avgPower) ≠
      (savitzkyGolay (c3curve.map (·.avgPower)) 7).map (fun q => max 0 q) ∧
    (applyFiltering c3curve 40).map (·.avgPower) ≠
      applyPowerFilter (c3curve.map (·.avgPower)) 40 := by
  have hmap : c3curve.map (·.avgPower) = [0, 0, 0, 0, 35] := by norm_num [c3curve]
  have h5 : (savitzkyGolay [(0 : ℚ), 0, 0, 0, 35] 5).map (fun q => max 0 q) =
      [0, 0, 0, 9, 26] := by
    norm_num [savitzkyGolay, sgCoefficients, List.range_succ, List.getD,
      show Int.toNat 2 = 2 from rfl, show Int.toNat 3 = 3 from rfl,
      show Int.toNat 4 = 4 from rfl]
  have h7 : (savitzkyGolay [(0 : ℚ), 0, 0, 0, 35] 7).map (fun q => max 0 q) =
      [0, 0, 5 / 3, 35 / 3, 70 / 3] := by
    norm_num [savitzkyGolay, sgCoefficients, List.range_succ, List.getD,
      show Int.toNat 2 = 2 from rfl, show Int.toNat 3 = 3 from rfl,
      show Int.toNat 4 = 4 from rfl]
  have h7' : savitzkyGolay [(0 : ℚ), 0, 0, 0, 35] 7 =
      [0, -10 / 3, 5 / 3, 35 / 3, 70 / 3] := by
    norm_num [savitzkyGolay, sgCoefficients, List.range_succ, List.getD,
      show Int.toNat 2 = 2 from rfl, show Int.toNat 3 = 3 from rfl,
      show Int.toNat 4 = 4 from rfl]
  have hpf : applyPowerFilter [(0 : ℚ), 0, 0, 0, 35] 40 =
      savitzkyGolay [(0 : ℚ), 0, 0, 0, 35] 7 := by
    norm_num [applyPowerFilter]
  have happ : (applyFiltering c3curve 40).map (·.avgPower) =
      (savitzkyGolay (c3curve.map (·.avgPower)) 5).map (fun q => max 0 q) := by
    norm_num [applyFiltering, savitzkyGolay, sgCoefficients, c3curve,
      List.range_succ, CV_TO_WATTS, rebuildCurve, List.getD,
      show Int.toNat 2 = 2 from rfl, show Int.toNat 3 = 3 from rfl,
      show Int.toNat 4 = 4 from rfl]
  refine ⟨happ, ?_, ?_⟩
  · rw [happ, hmap, h5, h7]
    norm_num
  · rw [happ, hmap, hpf, h5, h7']
    norm_num

/-- C3 witness: the amended ladder theorem applied to the concrete curve at
filter level 40. -/
theorem applyFiltering_windows_witness :
    5 ≤ c3curve.length ∧ (0 : ℚ) < 40 ∧ (40 : ℚ) ≤ 50 ∧
    (applyFiltering c3curve 40).map (·.avgPower) =
      (savitzkyGolay (c3curve.map (·.avgPower)) 5).map (fun q => max 0 q) :=
  ⟨by simp [c3curve], by norm_num, by norm_num,
    (applyFiltering_windows c3curve 40 (by simp [c3curve])).1 (by norm_num) (by norm_num)⟩

/-! ## C4: binByRPM invariants -/

/-- Number of input samples accepted by the binner's rpm-range test. -/
def acceptedCount (results : List PowerDataPoint) (minRPM maxRPM : ℚ) : ℕ :=
  (results.filter (fun r => decide (¬(r.rpm < minRPM ∨ maxRPM < r.rpm)))).length

/-- Total number of samples held in a bin map. -/
def binsSize (bins : List (ℚ × List PowerDataPoint)) : ℕ :=
  (bins.map (fun e => e.2.length)).sum

lemma binsSize_addToBins (k : ℚ) (p : PowerDataPoint) :
    ∀ bins, binsSize (addToBins k p bins) = binsSize bins + 1 := by
  intro bins
  induction bins with
  | nil => simp [addToBins, binsSize]
  | cons e rest ih =>
    obtain ⟨k0, g⟩ := e
    by_cases h : k0 = k
    · simp [addToBins, h, binsSize]
      omega
    · simp only [addToBins, if_neg h, binsSize, List.map_cons, List.sum_cons]
      have := ih
      simp only [binsSize] at this
      omega

lemma addToBins_key_pred (P : ℚ → Prop) (k : ℚ) (p : PowerDataPoint) (hk : P k) :
    ∀ bins, (∀ e ∈ bins, P e.1) → ∀ e ∈ addToBins k p bins, P e.1 := by
  intro bins
  induction bins with
  | nil =>
    intro _ e he
    simp only [addToBins, List.mem_singleton] at he
    simpa [he] using hk
  | cons e0 rest ih =>
    intro hall e he
    obtain ⟨k0, g⟩ := e0
    by_cases h : k0 = k
    · simp only [addToBins, if_pos h] at he
      rcases List.mem_cons.mp he with h1 | h1
      · simpa [h1] using hall (k0, g) (List.mem_cons_self _ _)
      · exact hall e (List.mem_cons_of_mem _ h1)
    · simp only [addToBins, if_neg h] at he
      rcases List.mem_cons.mp he with h1 | h1
      · simpa [h1] using hall (k0, g) (List.mem_cons_self _ _)
      · exact ih (fun e' he' => hall e' (List.mem_cons_of_mem _ he')) e h1

lemma addToBins_map_fst (k : ℚ) (p : PowerDataPoint) :
    ∀ bins, (addToBins k p bins).map (·.1) =
      if k ∈ bins.map (·.1) then bins.map (·.1) else bins.map (·.1) ++ [k] := by
  intro bins
  induction bins with
  | nil => simp [addToBins]
  | cons e0 rest ih =>
    obtain ⟨k0, g⟩ := e0
    by_cases h : k0 = k
    · simp [addToBins, h]
    · have hne : ¬k = k0 := fun hc => h hc.symm
      simp only [addToBins, if_neg h, List.map_cons, ih]
      by_cases hmem : k ∈ rest.map (·.1)
      · simp [hmem, hne]
      · simp [hmem, hne]

lemma addToBins_keys_nodup (k : ℚ) (p : PowerDataPoint) (bins : List (ℚ × List PowerDataPoint))
    (h : (bins.map (·.1)).Nodup) : ((addToBins k p bins).map (·.1)).Nodup := by
  rw [addToBins_map_fst]
  by_cases hmem : k ∈ bins.map (·.1)
  · simpa [hmem] using h
  · rw [if_neg hmem]
    rw [(List.perm_append_singleton k (bins.map (·.1))).nodup_iff]
    exact List.Nodup.cons hmem h

lemma acceptedCount_cons (r : PowerDataPoint) (l : List PowerDataPoint) (mn mx : ℚ) :
    acceptedCount (r :: l) mn mx =
      (if r.rpm < mn ∨ mx < r.rpm then 0 else 1) + acceptedCount l mn mx := by
  by_cases h : r.rpm < mn ∨ mx < r.rpm
  · rw [if_pos h]
    unfold acceptedCount
    rw [List.filter_cons, if_neg (by simp only [decide_eq_true_eq]; exact not_not_intro h)]
    omega
  · rw [if_neg h]
    unfold acceptedCount
    rw [List.filter_cons, if_pos (by simp only [decide_eq_true_eq]; exact h)]
    rw [List.length_cons]
    omega

lemma groupGo_size (mn mx bs : ℚ) :
    ∀ (l : List PowerDataPoint) (acc : List (ℚ × List PowerDataPoint)),
      binsSize (groupIntoBinsGo mn mx bs l acc) = binsSize acc + acceptedCount l mn mx := by
  intro l
  induction l with
  | nil => intro acc; simp [groupIntoBinsGo, acceptedCount]
  | cons r rest ih =>
    intro acc
    rw [groupIntoBinsGo, acceptedCount_cons]
    by_cases h : r.rpm < mn ∨ mx < r.rpm
    · rw [if_pos h, if_pos h, ih]
      omega
    · rw [if_neg h, if_neg h, ih, binsSize_addToBins]
      omega

lemma groupGo_key_pred (mn mx bs : ℚ) (P : ℚ → Prop)
    (hstep : ∀ r : PowerDataPoint, ¬(r.rpm < mn ∨ mx < r.rpm) → P (binKeyOf bs r.rpm)) :
    ∀ (l : List PowerDataPoint) (acc : List (ℚ × List PowerDataPoint)),
      (∀ e ∈ acc, P e.1) → ∀ e ∈ groupIntoBinsGo mn mx bs l acc, P e.1 := by
  intro l
  induction l with
  | nil => intro acc hacc; simpa [groupIntoBinsGo] using hacc
  | cons r rest ih =>
    intro acc hacc
    rw [groupIntoBinsGo]
    by_cases h : r.rpm < mn ∨ mx < r.rpm
    · rw [if_pos h]
      exact ih acc hacc
    · rw [if_neg h]
      exact ih _ (addToBins_key_pred P _ r (hstep r h) acc hacc)

lemma groupGo_keys_nodup (mn mx bs : ℚ) :
    ∀ (l : List PowerDataPoint) (acc : List (ℚ × List PowerDataPoint)),
      ((acc.map (·.1)).Nodup) → ((groupIntoBinsGo mn mx bs l acc).map (·.1)).Nodup := by
  intro l
  induction l with
  | nil => intro acc hacc; simpa [groupIntoBinsGo] using hacc
  | cons r rest ih =>
    intro acc hacc
    rw [groupIntoBinsGo]
    by_cases h : r.rpm < mn ∨ mx < r.rpm
    · rw [if_pos h]
      exact ih acc hacc
    · rw [if_neg h]
      exact ih _ (addToBins_keys_nodup _ r acc hacc)

lemma makeBin_eq_some {bs : ℚ} {e : ℚ × List PowerDataPoint} {b : BinnedResult}
    (h : makeBin bs e = some b) :
    b.rpm = e.1 + bs / 2 ∧ b.sampleCount = e.2.length ∧ 0 < b.avgPower ∧ 1 ≤ e.2.length := by
  unfold makeBin at h
  dsimp only at h
  split at h
  · exact absurd h (by simp)
  · split at h
    · exact absurd h (by simp)
    · rename_i hlen hpow
      cases h
      refine ⟨rfl, rfl, ?_, ?_⟩
      · exact lt_of_not_le hpow
      · omega

lemma sum_sampleCount_filterMap (bs : ℚ) :
    ∀ bins : List (ℚ × List PowerDataPoint),
      ((bins.filterMap (makeBin bs)).map (·.sampleCount)).sum ≤ binsSize bins := by
  intro bins
  induction bins with
  | nil => simp [binsSize]
  | cons e rest ih =>
    cases h : makeBin bs e with
    | none =>
      simp only [List.filterMap_cons, h, binsSize, List.map_cons, List.sum_cons]
      have := ih
      simp only [binsSize] at this
      omega
    | some b =>
      have hb := makeBin_eq_some h
      simp only [List.filterMap_cons, h, binsSize, List.map_cons, List.sum_cons]
      have := ih
      simp only [binsSize] at this
      omega

lemma rpm_of_mem_filterMap {bs : ℚ} {bins : List (ℚ × List PowerDataPoint)} {b : BinnedResult}
    (h : b ∈ bins.filterMap (makeBin bs)) : ∃ e ∈ bins, b.rpm = e.1 + bs / 2 := by
  rcases List.mem_filterMap.mp h with ⟨e, he, hsome⟩
  exact ⟨e, he, (makeBin_eq_some hsome).1⟩

lemma rpm_nodup_filterMap (bs : ℚ) :
    ∀ bins : List (ℚ × List PowerDataPoint), (bins.map (·.1)).Nodup →
      ((bins.filterMap (makeBin bs)).map (·.rpm)).Nodup := by
  intro bins
  induction bins with
  | nil => simp
  | cons e rest ih =>
    intro hnd
    rw [List.map_cons, List.nodup_cons] at hnd
    cases h : makeBin bs e with
    | none =>
      simp only [List.filterMap_cons, h]
      exact ih hnd.2
    | some b =>
      simp only [List.filterMap_cons, h, List.map_cons, List.nodup_cons]
      refine ⟨?_, ih hnd.2⟩
      intro hmem
      rcases List.mem_map.mp hmem with ⟨b', hb', heq⟩
      rcases rpm_of_mem_filterMap hb' with ⟨e', he', hrpm⟩
      have hbrpm := (makeBin_eq_some h).1
      have : e.1 = e'.1 := by
        have := heq.symm.trans hrpm
        rw [hbrpm] at this
        linarith
      exact hnd.1 (this ▸ List.mem_map_of_mem (·.1) he')

/-- C4 (amended): for positive minRPM ≤ maxRPM the binner output is sorted
strictly increasing in bin centre, every centre has the form 50 + 100·n with
n a natural number, every reported bin holds at least one sample and has
positive mean power, and the reported sampleCount sum is at most the number
of rpm-accepted samples, itself at most the input length. -/
theorem binByRPM_invariants :
    ∀ (results : List PowerDataPoint) (minRPM maxRPM : ℚ),
      0 < minRPM → minRPM ≤ maxRPM →
      List.Pairwise (fun a b => a.rpm < b.rpm) (binByRPM results minRPM maxRPM) ∧
      (∀ b ∈ binByRPM results minRPM maxRPM, ∃ n : ℕ, b.rpm = 50 + 100 * n) ∧
      (∀ b ∈ binByRPM results minRPM maxRPM, 1 ≤ b.sampleCount ∧ 0 < b.avgPower) ∧
      ((binByRPM results minRPM maxRPM).map (·.sampleCount)).sum ≤
        acceptedCount results minRPM maxRPM ∧
      acceptedCount results minRPM maxRPM ≤ results.length := by
  intro results mn mx hmn _hmnmx
  have hperm : List.Perm (binByRPM results mn mx)
      ((groupIntoBins results mn mx 100).filterMap (makeBin 100)) :=
    List.perm_insertionSort _ _
  have hkeys : ∀ e ∈ groupIntoBins results mn mx 100, ∃ n : ℕ, e.1 = (n : ℚ) * 100 := by
    unfold groupIntoBins
    refine groupGo_key_pred mn mx 100 (fun k => ∃ n : ℕ, k = (n : ℚ) * 100) ?_ results []
      (by simp)
    intro r hr
    have hge : mn ≤ r.rpm := not_lt.mp (not_or.mp hr).1
    have hpos : 0 < r.rpm := lt_of_lt_of_le hmn hge
    have hfl : 0 ≤ ⌊r.rpm / 100⌋ := Int.floor_nonneg.mpr (by positivity)
    refine ⟨⌊r.rpm / 100⌋.toNat, ?_⟩
    unfold binKeyOf
    congr 1
    exact_mod_cast (Int.toNat_of_nonneg hfl).symm
  have hnodupKeys : ((groupIntoBins results mn mx 100).map (·.1)).Nodup := by
    unfold groupIntoBins
    exact groupGo_keys_nodup mn mx 100 results [] (by simp)
  have hnodupRpm :
      (((groupIntoBins results mn mx 100).filterMap (makeBin 100)).map (·.rpm)).Nodup :=
    rpm_nodup_filterMap 100 _ hnodupKeys
  haveI : IsTotal BinnedResult (fun a b => a.rpm ≤ b.rpm) := ⟨fun a b => le_total _ _⟩
  haveI : IsTrans BinnedResult (fun a b => a.rpm ≤ b.rpm) :=
    ⟨fun _ _ _ h1 h2 => le_trans h1 h2⟩
  have hsorted : List.Sorted (fun a b => a.rpm ≤ b.rpm) (binByRPM results mn mx) :=
    List.sorted_insertionSort _ _
  refine ⟨?_, ?_, ?_, ?_, ?_⟩
  · have hnd : ((binByRPM results mn mx).map (·.rpm)).Nodup :=
      ((hperm.map (·.rpm)).nodup_iff).mpr hnodupRpm
    have hne : List.Pairwise (fun a b => a.rpm ≠ b.rpm) (binByRPM results mn mx) :=
      (List.pairwise_map).mp hnd
    exact (hsorted.and hne).imp (fun h => lt_of_le_of_ne h.1 h.2)
  · intro b hb
    rcases rpm_of_mem_filterMap (hperm.subset hb) with ⟨e, he, hrpm⟩
    rcases hkeys e he with ⟨n, hk⟩
    refine ⟨n, ?_⟩
    rw [hrpm, hk]
    ring
  · intro b hb
    rcases List.mem_filterMap.mp (hperm.subset hb) with ⟨e, _, hsome⟩
    rcases makeBin_eq_some hsome with ⟨_, hcount, hpow, hlen⟩
    exact ⟨by omega, hpow⟩
  · calc ((binByRPM results mn mx).map (·.sampleCount)).sum
        = (((groupIntoBins results mn mx 100).filterMap (makeBin 100)).map
            (·.sampleCount)).sum := (hperm.map (·.sampleCount)).sum_eq
      _ ≤ binsSize (groupIntoBins results mn mx 100) := sum_sampleCount_filterMap 100 _
      _ = acceptedCount results mn mx := by
          have := groupGo_size mn mx 100 results []
          unfold groupIntoBins
          simpa [binsSize] using this
  · exact List.length_filter_le _ _

/-- The concrete sample (rpm 150, power 0) used when checking claim C4. -/
def c4point : PowerDataPoint := ⟨150, 0, 0, 0, 0, 0, 0, 0, 0, 0, 0⟩

/-- C4 counterexample: one sample with rpm 150 inside [100, 200] but zero
power is accepted by the rpm-range test, yet its bin is dropped for
non-positive mean power, so the reported sampleCount sum 0 differs from the
accepted-sample count 1. -/
theorem binByRPM_count_counterexample :
    (0 : ℚ) < 100 ∧ (100 : ℚ) ≤ 200 ∧
    binByRPM [c4point] 100 200 = [] ∧
    acceptedCount [c4point] 100 200 = 1 := by
  refine ⟨by norm_num, by norm_num, ?_, ?_⟩
  · norm_num [binByRPM, groupIntoBins, groupIntoBinsGo, addToBins, makeBin, binKeyOf,
      average, List.insertionSort, c4point]
  · norm_num [acceptedCount, List.filter_cons, c4point]

/-- The concrete accepted sample with positive power used in the C4 witness. -/
def c4sample : PowerDataPoint := ⟨150, 40, 10, 20, 1, 0, 0, 0, 0, 0, 0⟩

/-- C4 witness: the amended invariants applied to a concrete one-sample run. -/
theorem binByRPM_invariants_witness :
    (0 : ℚ) < 100 ∧ (100 : ℚ) ≤ 200 ∧
    (List.Pairwise (fun a b => a.rpm < b.rpm) (binByRPM [c4sample] 100 200) ∧
      (∀ b ∈ binByRPM [c4sample] 100 200, ∃ n : ℕ, b.rpm = 50 + 100 * n) ∧
      (∀ b ∈ binByRPM [c4sample] 100 200, 1 ≤ b.sampleCount ∧ 0 < b.avgPower) ∧
      ((binByRPM [c4sample] 100 200).map (·.sampleCount)).sum ≤
        acceptedCount [c4sample] 100 200 ∧
      acceptedCount [c4sample] 100 200 ≤ [c4sample].length) :=
  ⟨by norm_num, by norm_num,
    binByRPM_invariants [c4sample] 100 200 (by norm_num) (by norm_num)⟩

/-! ## gearDetection.ts (real-valued; the observed ratio uses π) -/

open scoped Classical

/-- One reduction stage given as a sprocket/gear tooth pair. -/
structure GearPair where
  input : ℝ
  output : ℝ

/-- Gearbox: primary reduction plus the ordered gear list. -/
structure Gearbox where
  primary : GearPair
  gears : List GearPair

/-- Engine configuration (the fields the analysis core reads). -/
structure Engine where
  inertia : ℝ
  gearbox : Gearbox

/-- isDirectDrive: an engine with an empty gear list. -/
def isDirectDrive (engine : Engine) : Bool :=
  engine.gearbox.gears.isEmpty

/-- Candidate total ratio of one gear: primary ratio times gear ratio times
final drive ratio. -/
noncomputable def expectedRatioOf (primaryR finalR : ℝ) (g : GearPair) : ℝ :=
  primaryR * (g.output / g.input) * finalR

/-- Relative error of the observed ratio against one gear's candidate ratio. -/
noncomputable def gearErrorOf (observedR primaryR finalR : ℝ) (g : GearPair) : ℝ :=
  |observedR - expectedRatioOf primaryR finalR g| / expectedRatioOf primaryR finalR g

/-- The best-match loop of detectGear: walk the gears with the running
(bestError, bestMatch) accumulator, skipping gears with zero teeth. -/
noncomputable def detectGearLoop (observedR primaryR finalR : ℝ) :
    List GearPair → ℕ → ℝ → ℕ → ℕ
  | [], _, _, bestMatch => bestMatch
  | g :: rest, i, bestError, bestMatch =>
    if g.input = 0 ∨ g.output = 0 then
      detectGearLoop observedR primaryR finalR rest (i + 1) bestError bestMatch
    else
      let error := gearErrorOf observedR primaryR finalR g
      if error < bestError then detectGearLoop observedR primaryR finalR rest (i + 1) error (i + 1)
      else detectGearLoop observedR primaryR finalR rest (i + 1) bestError bestMatch

/-- detectGear: infer the engaged gear from the rpm/wheel-speed ratio; 0 when
no gear matches within 15 %, 1 for direct drive, 0 below 1 m/s. -/
noncomputable def detectGear (rpm speed wheelRadius finalR : ℝ) (engine : Engine) : ℕ :=
  if speed < 1 then 0
  else if isDirectDrive engine then 1
  else
    let wheelAngularVelocity := speed / wheelRadius
    let engineAngularVelocity := rpm * Real.pi / 30
    let observedR := engineAngularVelocity / wheelAngularVelocity
    let primaryR := engine.gearbox.primary.output / engine.gearbox.primary.input
    detectGearLoop observedR primaryR finalR engine.gearbox.gears 0 0.15 0

/-- getTotalRatio of the source: total reduction from engine to wheel for a
given gear (primary times final for direct drive, 0 for an invalid gear). -/
noncomputable def getTotalRatioOf (gear : ℕ) (finalR : ℝ) (engine : Engine) : ℝ :=
  let primaryR := engine.gearbox.primary.output / engine.gearbox.primary.input
  if isDirectDrive engine then primaryR * finalR
  else if gear < 1 ∨ engine.gearbox.gears.length < gear then 0
  else
    let gearData := engine.gearbox.gears.getD (gear - 1) ⟨0, 0⟩
    primaryR * (gearData.output / gearData.input) * finalR

/-- Modelled from the spec of the gear detector (section 4.5): return the
1-based index of the gear whose relative error is minimal and strictly below
0.15, ties broken by the smallest index, 0 when every error is at least
0.15; direct drive returns 1, speeds below 1 m/s return 0. -/
noncomputable def detectGearSpec (rpm speed wheelRadius finalR : ℝ) (engine : Engine) : ℕ :=
  if speed < 1 then 0
  else if engine.gearbox.gears = [] then 1
  else
    let observedR := (rpm * Real.pi / 30) / (speed / wheelRadius)
    let primaryR := engine.gearbox.primary.output / engine.gearbox.primary.input
    let errors := engine.gearbox.gears.map (gearErrorOf observedR primaryR finalR)
    if h : ∃ j, j < errors.length ∧ errors.getD j 0 < 0.15 ∧
        (∀ k < errors.length, errors.getD j 0 ≤ errors.getD k 0) ∧
        (∀ k < j, errors.getD j 0 < errors.getD k 0)
    then h.choose + 1
    else 0

lemma getD_mem {es : List ℝ} {k : ℕ} (h : k < es.length) : es.getD k 0 ∈ es := by
  rw [List.getD_eq_getElem _ _ h]
  exact List.getElem_mem h

lemma detectGearLoop_characterize (obs prim finR : ℝ) :
    ∀ (gears : List GearPair), (∀ g ∈ gears, ¬(g.input = 0 ∨ g.output = 0)) →
    ∀ (i : ℕ) (be : ℝ) (bm : ℕ),
      ((∀ e ∈ gears.map (gearErrorOf obs prim finR), be ≤ e) ∧
        detectGearLoop obs prim finR gears i be bm = bm) ∨
      (∃ j, j < gears.length ∧
        (gears.map (gearErrorOf obs prim finR)).getD j 0 < be ∧
        (∀ k < gears.length,
          (gears.map (gearErrorOf obs prim finR)).getD j 0 ≤
            (gears.map (gearErrorOf obs prim finR)).getD k 0) ∧
        (∀ k < j,
          (gears.map (gearErrorOf obs prim finR)).getD j 0 <
            (gears.map (gearErrorOf obs prim finR)).getD k 0) ∧
        detectGearLoop obs prim finR gears i be bm = i + j + 1) := by
  intro gears
  induction gears with
  | nil =>
    intro _ i be bm
    left
    exact ⟨by simp, rfl⟩
  | cons g rest ih =>
    intro hwf i be bm
    have hg := hwf g (List.mem_cons_self g rest)
    have hrest := fun g' hg' => hwf g' (List.mem_cons_of_mem _ hg')
    simp only [detectGearLoop, if_neg hg]
    by_cases hlt : gearErrorOf obs prim finR g < be
    · rw [if_pos hlt]
      rcases ih hrest (i + 1) (gearErrorOf obs prim finR g) (i + 1) with
        ⟨hall, hres⟩ | ⟨j, hj, hjlt, hjmin, hjfirst, hres⟩
      · right
        refine ⟨0, by simp, by simpa using hlt, ?_, by simp, by simpa using hres⟩
        intro k hk
        match k with
        | 0 => simp
        | k' + 1 =>
          simp only [List.map_cons, List.getD_cons_zero, List.getD_cons_succ]
          have hk' : k' < rest.length := by simpa using hk
          exact hall _ (getD_mem (by simpa using hk'))
      · right
        refine ⟨j + 1, by simpa using hj, ?_, ?_, ?_, ?_⟩
        · simpa [List.getD_cons_succ] using lt_trans hjlt hlt
        · intro k hk
          match k with
          | 0 =>
            simp only [List.map_cons, List.getD_cons_succ, List.getD_cons_zero]
            exact le_of_lt hjlt
          | k' + 1 =>
            simp only [List.map_cons, List.getD_cons_succ]
            exact hjmin k' (by simpa using hk)
        · intro k hk
          match k with
          | 0 =>
            simp only [List.map_cons, List.getD_cons_succ, List.getD_cons_zero]
            exact hjlt
          | k' + 1 =>
            simp only [List.map_cons, List.getD_cons_succ]
            exact hjfirst k' (by omega)
        · rw [hres]
          omega
    · rw [if_neg hlt]
      rcases ih hrest (i + 1) be bm with
        ⟨hall, hres⟩ | ⟨j, hj, hjlt, hjmin, hjfirst, hres⟩
      · left
        refine ⟨?_, hres⟩
        intro e he
        rw [List.map_cons] at he
        rcases List.mem_cons.mp he with h1 | h1
        · exact h1 ▸ not_lt.mp hlt
        · exact hall e h1
      · right
        refine ⟨j + 1, by simpa using hj, by simpa [List.getD_cons_succ] using hjlt, ?_, ?_, ?_⟩
        · intro k hk
          match k with
          | 0 =>
            simp only [List.map_cons, List.getD_cons_succ, List.getD_cons_zero]
            exact le_of_lt (lt_of_lt_of_le hjlt (not_lt.mp hlt))
          | k' + 1 =>
            simp only [List.map_cons, List.getD_cons_succ]
            exact hjmin k' (by simpa using hk)
        · intro k hk
          match k with
          | 0 =>
            simp only [List.map_cons, List.getD_cons_succ, List.getD_cons_zero]
            exact lt_of_lt_of_le hjlt (not_lt.mp hlt)
          | k' + 1 =>
            simp only [List.map_cons, List.getD_cons_succ]
            exact hjfirst k' (by omega)
        · rw [hres]
          omega

lemma firstMin_unique {es : List ℝ} {j j' : ℕ}
    (h : j < es.length ∧ es.getD j 0 < 0.15 ∧ (∀ k < es.length, es.getD j 0 ≤ es.getD k 0) ∧
      (∀ k < j, es.getD j 0 < es.getD k 0))
    (h' : j' < es.length ∧ es.getD j' 0 < 0.15 ∧ (∀ k < es.length, es.getD j' 0 ≤ es.getD k 0) ∧
      (∀ k < j', es.getD j' 0 < es.getD k 0)) : j = j' := by
  by_contra hne
  rcases Nat.lt_or_ge j j' with hlt | hge
  · have h1 := h'.2.2.2 j hlt
    have h2 := h.2.2.1 j' h'.1
    linarith
  · have hlt' : j' < j := lt_of_le_of_ne hge (Ne.symm hne)
    have h1 := h.2.2.2 j' hlt'
    have h2 := h'.2.2.1 j h.1
    linarith

lemma dite_firstMin_eq {es : List ℝ} {j : ℕ}
    (hj : j < es.length) (hjlt : es.getD j 0 < 0.15)
    (hjmin : ∀ k < es.length, es.getD j 0 ≤ es.getD k 0)
    (hjfirst : ∀ k < j, es.getD j 0 < es.getD k 0) :
    (if h : ∃ j, j < es.length ∧ es.getD j 0 < 0.15 ∧
        (∀ k < es.length, es.getD j 0 ≤ es.getD k 0) ∧
        (∀ k < j, es.getD j 0 < es.getD k 0)
     then h.choose + 1 else 0) = j + 1 := by
  have hex : ∃ j, j < es.length ∧ es.getD j 0 < 0.15 ∧
      (∀ k < es.length, es.getD j 0 ≤ es.getD k 0) ∧
      (∀ k < j, es.getD j 0 < es.getD k 0) := ⟨j, hj, hjlt, hjmin, hjfirst⟩
  rw [dif_pos hex]
  have := firstMin_unique hex.choose_spec ⟨hj, hjlt, hjmin, hjfirst⟩
  omega

/-- C2: the source gear detector agrees with the spec's reference definition
(argmin of relative error with 15 % threshold, smallest-index tie-break,
direct drive giving gear 1 with total ratio primary times final, speeds
below 1 m/s giving 0), for configurations with positive teeth counts. -/
theorem detectGear_eq_spec :
    ∀ (rpm speed wheelRadius finalR : ℝ) (engine : Engine),
      0 < engine.gearbox.primary.input → 0 < engine.gearbox.primary.output →
      0 < finalR → (∀ g ∈ engine.gearbox.gears, 0 < g.input ∧ 0 < g.output) →
      detectGear rpm speed wheelRadius finalR engine =
        detectGearSpec rpm speed wheelRadius finalR engine ∧
      (engine.gearbox.gears = [] →
        getTotalRatioOf 1 finalR engine =
          engine.gearbox.primary.output / engine.gearbox.primary.input * finalR) := by
  intro rpm speed wheelRadius finalR engine hpin hpout hfin hgears
  constructor
  · unfold detectGear detectGearSpec
    by_cases hsp : speed < 1
    · rw [if_pos hsp, if_pos hsp]
    rw [if_neg hsp, if_neg hsp]
    by_cases hdd : engine.gearbox.gears = []
    · rw [if_pos (by simp [isDirectDrive, hdd]), if_pos hdd]
    have hnd : ¬(isDirectDrive engine = true) := by simp [isDirectDrive, hdd]
    rw [if_neg hnd, if_neg hdd]
    dsimp only
    have hwf : ∀ g ∈ engine.gearbox.gears, ¬(g.input = 0 ∨ g.output = 0) := by
      intro g hgm
      rcases hgears g hgm with ⟨h1, h2⟩
      push_neg
      exact ⟨ne_of_gt h1, ne_of_gt h2⟩
    rcases detectGearLoop_characterize (rpm * Real.pi / 30 / (speed / wheelRadius))
        (engine.gearbox.primary.output / engine.gearbox.primary.input) finalR
        engine.gearbox.gears hwf 0 0.15 0 with
      ⟨hall, hres⟩ | ⟨j, hj, hjlt, hjmin, hjfirst, hres⟩
    · rw [hres, dif_neg]
      rintro ⟨j, hjlen, hjlt, -, -⟩
      exact absurd hjlt (not_lt.mpr (hall _ (getD_mem hjlen)))
    · rw [hres, dite_firstMin_eq (by simpa using hj) hjlt
        (fun k hk => hjmin k (by simpa using hk)) hjfirst]
      omega
  · intro hdd
    unfold getTotalRatioOf
    rw [if_pos (by simp [isDirectDrive, hdd])]

/-- The concrete shifter engine (primary 19:75, six gears) used in the C2
witness. -/
def c2engine : Engine :=
  ⟨0.003, ⟨⟨19, 75⟩, [⟨13, 33⟩, ⟨16, 29⟩, ⟨18, 27⟩, ⟨22, 27⟩, ⟨22, 23⟩, ⟨27, 25⟩]⟩⟩

/-- C2 witness: the detector/spec agreement applied to the concrete shifter
engine at rpm 9000, speed 10 m/s, wheel radius 0.14 m, final ratio 80/11. -/
theorem detectGear_eq_spec_witness :
    (0 : ℝ) < c2engine.gearbox.primary.input ∧ (0 : ℝ) < c2engine.gearbox.primary.output ∧
    (0 : ℝ) < 80 / 11 ∧ (∀ g ∈ c2engine.gearbox.gears, 0 < g.input ∧ 0 < g.output) ∧
    (detectGear 9000 10 0.14 (80 / 11) c2engine =
        detectGearSpec 9000 10 0.14 (80 / 11) c2engine ∧
      (c2engine.gearbox.gears = [] →
        getTotalRatioOf 1 (80 / 11) c2engine =
          c2engine.gearbox.primary.output / c2engine.gearbox.primary.input * (80 / 11))) :=
  ⟨by norm_num [c2engine], by norm_num [c2engine], by norm_num,
    by
      intro g hg
      simp only [c2engine, List.mem_cons, List.not_mem_nil, or_false] at hg
      rcases hg with h | h | h | h | h | h <;> subst h <;> norm_num,
    detectGear_eq_spec 9000 10 0.14 (80 / 11) c2engine (by norm_num [c2engine])
      (by norm_num [c2engine]) (by norm_num)
      (by
        intro g hg
        simp only [c2engine, List.mem_cons, List.not_mem_nil, or_false] at hg
        rcases hg with h | h | h | h | h | h <;> subst h <;> norm_num)⟩

/-! ## environmentCorrection.ts -/

/-- R_DRY: gas constant for dry air. -/
def R_DRY : ℝ := 287.05

/-- R_VAPOR: gas constant for water vapor. -/
def R_VAPOR : ℝ := 461.495

/-- saturationVaporPressure: Magnus formula, input in Celsius, output Pa. -/
noncomputable def saturationVaporPressure (temperature : ℝ) : ℝ :=
  610.78 * Real.exp (17.27 * temperature / (237.7 + temperature))

/-- calculateAirDensity: humid-air density from pressure (mbar), temperature
(Celsius) and relative humidity (percent). -/
noncomputable def calculateAirDensity (pressure temperature humidity : ℝ) : ℝ :=
  let pressurePa := pressure * 100
  let temperatureK := temperature + 273.15
  let relativeHumidity := humidity / 100
  let pSat := saturationVaporPressure temperature
  let pVapor := relativeHumidity * pSat
  let pDry := pressurePa - pVapor
  pDry / (R_DRY * temperatureK) + pVapor / (R_VAPOR * temperatureK)

/-- C9: at 1013.25 mbar, 15 Celsius and 0 percent humidity the computed
humid-air density equals 1.225 kg per cubic metre to within 5e-4. -/
theorem calculateAirDensity_standard :
    |calculateAirDensity 1013.25 15 0 - 1.225| ≤ 5 / 10000 := by
  have hval : calculateAirDensity 1013.25 15 0 = 101325 / (287.05 * 288.15) := by
    unfold calculateAirDensity R_DRY R_VAPOR
    norm_num
  rw [hval, abs_le]
  constructor <;> norm_num

/-! ## powerCalculation.ts (per-sample body of calculatePower) -/

/-- GRAVITY constant of the power engine (m/s²). -/
def GRAVITY : ℝ := 9.81

/-- CV_TO_WATTS over ℝ: one metric horsepower in watts. -/
def CV_TO_WATTS_R : ℝ := 735.5

/-- Kart configuration. -/
structure Kart where
  weight : ℝ
  frontalArea : ℝ
  dragCoefficient : ℝ

/-- Tyre configuration. -/
structure Tyre where
  diameter : ℝ
  inertia : ℝ
  rollingCoeff1 : ℝ
  rollingCoeff2 : ℝ

/-- Final drive sprockets. -/
structure FinalDrive where
  frontSprocket : ℝ
  rearSprocket : ℝ

/-- Ambient run conditions. -/
structure RunConditions where
  pressure : ℝ
  temperature : ℝ
  humidity : ℝ

/-- The analysis configuration consumed by calculatePower. -/
structure AnalysisConfig where
  kart : Kart
  engine : Engine
  tyre : Tyre
  finalDrive : FinalDrive
  runConditions : RunConditions
  minRpm : ℝ
  maxRpm : ℝ
  filterLevel : ℝ

/-- Models the JavaScript idiom x || 0 on a real number x. -/
noncomputable def jsOrZeroR (x : ℝ) : ℝ := if x = 0 then 0 else x

/-- One accepted sample produced by the power engine (real-valued). -/
structure PowerDataPointR where
  rpm : ℝ
  speed : ℝ
  power : ℝ
  torque : ℝ
  gear : ℕ
  tempHead : ℝ
  tempCool : ℝ
  tempExhaust : ℝ
  lambda : ℝ

/-- calculatePowerSample: the per-sample loop body of calculatePower —
unit conversions, the four rejection tests, gear detection, the five-term
force balance, the power sanity bound, and the accepted record. -/
noncomputable def calculatePowerSample (config : AnalysisConfig)
    (speedKmh rpm lonAccG tempHead tempCool tempExhaust lambda : ℝ) :
    Option PowerDataPointR :=
  let wheelRadius := config.tyre.diameter / 2000
  let finalR := config.finalDrive.rearSprocket / config.finalDrive.frontSprocket
  let airDensity := calculateAirDensity config.runConditions.pressure
    config.runConditions.temperature config.runConditions.humidity
  let speed := speedKmh / 3.6
  let lonAcc := lonAccG * GRAVITY
  if speed < 5 / 3.6 then none
  else if lonAcc ≤ 0 then none
  else if rpm < config.minRpm ∨ config.maxRpm < rpm then none
  else
    let gear := detectGear rpm speed wheelRadius finalR config.engine
    if gear = 0 then none
    else
      let totalR := getTotalRatioOf gear finalR config.engine
      if totalR = 0 then none
      else
        let dragForce := 0.5 * airDensity * config.kart.frontalArea *
          config.kart.dragCoefficient * speed * speed
        let rollingResistance := config.kart.weight * GRAVITY *
          (config.tyre.rollingCoeff1 + config.tyre.rollingCoeff2 * speed * speed)
        let linearInertia := config.kart.weight * lonAcc
        let wheelAngularAcc := lonAcc / wheelRadius
        let wheelInertiaForce := 2 * config.tyre.inertia * wheelAngularAcc / wheelRadius
        let engineAngularAcc := wheelAngularAcc * totalR
        let engineInertiaForce := config.engine.inertia * engineAngularAcc * totalR / wheelRadius
        let wheelForce := linearInertia + dragForce + rollingResistance +
          wheelInertiaForce + engineInertiaForce
        let wheelPowerW := wheelForce * speed
        let wheelPowerCV := wheelPowerW / CV_TO_WATTS_R
        if wheelPowerCV < 0 ∨ 100 < wheelPowerCV then none
        else some
          { rpm := rpm
            speed := speedKmh
            power := wheelPowerCV
            torque := wheelForce * wheelRadius
            gear := gear
            tempHead := jsOrZeroR tempHead
            tempCool := jsOrZeroR tempCool
            tempExhaust := jsOrZeroR tempExhaust
            lambda := jsOrZeroR lambda }

/-- calculatePower over one lap's channel rows: filterMap of the sample
body over the rows (the source's inner loop). -/
noncomputable def calculatePowerOverSamples (config : AnalysisConfig)
    (rows : List (ℝ × ℝ × ℝ)) : List PowerDataPointR :=
  rows.filterMap (fun row => calculatePowerSample config row.1 row.2.1 row.2.2 0 0 0 0)

/-- Modelled from the spec (section 4.6): the five-term wheel force with the
gravity constant g passed explicitly (the spec uses 9.80665 for the
acceleration conversion, the code uses 9.81). -/
noncomputable def specWheelForce (config : AnalysisConfig) (g speedKmh rpm lonAccG : ℝ) : ℝ :=
  let v := speedKmh / 3.6
  let a := lonAccG * g
  let r := config.tyre.diameter / 2000
  let finalR := config.finalDrive.rearSprocket / config.finalDrive.frontSprocket
  let rho := calculateAirDensity config.runConditions.pressure
    config.runConditions.temperature config.runConditions.humidity
  let gear := detectGear rpm v r finalR config.engine
  let totalR := getTotalRatioOf gear finalR config.engine
  config.kart.weight * a +
    0.5 * rho * config.kart.frontalArea * config.kart.dragCoefficient * v ^ 2 +
    config.kart.weight * g *
      (config.tyre.rollingCoeff1 + config.tyre.rollingCoeff2 * v ^ 2) +
    2 * config.tyre.inertia * (a / r) / r +
    config.engine.inertia * (a / r) * totalR ^ 2 / r

/-- Modelled from the spec: wheel power in CV, force times speed over 735.5. -/
noncomputable def specWheelPowerCV (config : AnalysisConfig) (g speedKmh rpm lonAccG : ℝ) : ℝ :=
  specWheelForce config g speedKmh rpm lonAccG * (speedKmh / 3.6) / 735.5

/-- Modelled from the spec: wheel torque, force times wheel radius. -/
noncomputable def specWheelTorque (config : AnalysisConfig) (g speedKmh rpm lonAccG : ℝ) : ℝ :=
  specWheelForce config g speedKmh rpm lonAccG * (config.tyre.diameter / 2000)

/-- Modelled from the spec: the acceptance conditions of section 4.6 with
the gravity constant g explicit. -/
noncomputable def specAccepts (config : AnalysisConfig) (g speedKmh rpm lonAccG : ℝ) : Prop :=
  5 / 3.6 ≤ speedKmh / 3.6 ∧ 0 < lonAccG * g ∧
  config.minRpm ≤ rpm ∧ rpm ≤ config.maxRpm ∧
  detectGear rpm (speedKmh / 3.6) (config.tyre.diameter / 2000)
    (config.finalDrive.rearSprocket / config.finalDrive.frontSprocket) config.engine ≠ 0 ∧
  0 ≤ specWheelPowerCV config g speedKmh rpm lonAccG ∧
  specWheelPowerCV config g speedKmh rpm lonAccG ≤ 100

lemma detectGear_range (rpm speed wheelRadius finalR : ℝ) (engine : Engine)
    (hwf : ∀ g ∈ engine.gearbox.gears, ¬(g.input = 0 ∨ g.output = 0)) :
    detectGear rpm speed wheelRadius finalR engine = 0 ∨ isDirectDrive engine = true ∨
      (1 ≤ detectGear rpm speed wheelRadius finalR engine ∧
        detectGear rpm speed wheelRadius finalR engine ≤ engine.gearbox.gears.length) := by
  unfold detectGear
  by_cases hsp : speed < 1
  · left
    rw [if_pos hsp]
  rw [if_neg hsp]
  by_cases hdd : isDirectDrive engine = true
  · right; left; exact hdd
  rw [if_neg hdd]
  dsimp only
  rcases detectGearLoop_characterize (rpm * Real.pi / 30 / (speed / wheelRadius))
      (engine.gearbox.primary.output / engine.gearbox.primary.input) finalR
      engine.gearbox.gears hwf 0 0.15 0 with ⟨-, hres⟩ | ⟨j, hj, -, -, -, hres⟩
  · left; exact hres
  · right; right
    rw [hres]
    omega

lemma getTotalRatioOf_ne_zero (gear : ℕ) (finalR : ℝ) (engine : Engine)
    (hpin : engine.gearbox.primary.input ≠ 0) (hpout : engine.gearbox.primary.output ≠ 0)
    (hfr : finalR ≠ 0)
    (hgears : ∀ g ∈ engine.gearbox.gears, g.input ≠ 0 ∧ g.output ≠ 0)
    (hrange : isDirectDrive engine = true ∨
      (1 ≤ gear ∧ gear ≤ engine.gearbox.gears.length)) :
    getTotalRatioOf gear finalR engine ≠ 0 := by
  unfold getTotalRatioOf
  dsimp only
  rcases hrange with hdd | ⟨hge, hle⟩
  · rw [if_pos hdd]
    exact mul_ne_zero (div_ne_zero hpout hpin) hfr
  · by_cases hdd : isDirectDrive engine = true
    · rw [if_pos hdd]
      exact mul_ne_zero (div_ne_zero hpout hpin) hfr
    rw [if_neg hdd, if_neg (by omega : ¬(gear < 1 ∨ engine.gearbox.gears.length < gear))]
    have hidx : gear - 1 < engine.gearbox.gears.length := by omega
    have hmem : engine.gearbox.gears.getD (gear - 1) ⟨0, 0⟩ ∈ engine.gearbox.gears := by
      rw [List.getD_eq_getElem _ _ hidx]
      exact List.getElem_mem hidx
    rcases hgears _ hmem with ⟨hin, hout⟩
    exact mul_ne_zero (mul_ne_zero (div_ne_zero hpout hpin) (div_ne_zero hout hin)) hfr

/-- C1 (amended): a sample is accepted iff v = speed/3.6 is at least 5/3.6,
a = lon_acc · 9.81 is positive (the source's GRAVITY constant, not the
spec's 9.80665), rpm lies in [min_rpm, max_rpm], gear detection is non-zero
and the computed power in CV lies in [0, 100]; every accepted sample carries
the five-term wheel power and the wheel torque F·r of section 4.6 evaluated
with g = 9.81. -/
theorem calculatePower_sample_spec :
    ∀ (config : AnalysisConfig) (speedKmh rpm lonAccG tH tC tE lam : ℝ),
      config.engine.gearbox.primary.input ≠ 0 →
      config.engine.gearbox.primary.output ≠ 0 →
      config.finalDrive.frontSprocket ≠ 0 →
      config.finalDrive.rearSprocket ≠ 0 →
      (∀ g ∈ config.engine.gearbox.gears, g.input ≠ 0 ∧ g.output ≠ 0) →
      ((calculatePowerSample config speedKmh rpm lonAccG tH tC tE lam).isSome ↔
        specAccepts config GRAVITY speedKmh rpm lonAccG) ∧
      (∀ p, calculatePowerSample config speedKmh rpm lonAccG tH tC tE lam = some p →
        p.power = specWheelPowerCV config GRAVITY speedKmh rpm lonAccG ∧
        p.torque = specWheelTorque config GRAVITY speedKmh rpm lonAccG) := by
  intro config speedKmh rpm lonAccG tH tC tE lam hpin hpout hfront hrear hgears
  have hunfold : calculatePowerSample config speedKmh rpm lonAccG tH tC tE lam =
      (if speedKmh / 3.6 < 5 / 3.6 then none
       else if lonAccG * GRAVITY ≤ 0 then none
       else if rpm < config.minRpm ∨ config.maxRpm < rpm then none
       else if detectGear rpm (speedKmh / 3.6) (config.tyre.diameter / 2000)
           (config.finalDrive.rearSprocket / config.finalDrive.frontSprocket)
           config.engine = 0 then none
       else if getTotalRatioOf
           (detectGear rpm (speedKmh / 3.6) (config.tyre.diameter / 2000)
             (config.finalDrive.rearSprocket / config.finalDrive.frontSprocket) config.engine)
           (config.finalDrive.rearSprocket / config.finalDrive.frontSprocket)
           config.engine = 0 then none
       else
        let tt := getTotalRatioOf
          (detectGear rpm (speedKmh / 3.6) (config.tyre.diameter / 2000)
            (config.finalDrive.rearSprocket / config.finalDrive.frontSprocket) config.engine)
          (config.finalDrive.rearSprocket / config.finalDrive.frontSprocket) config.engine
        let wheelForce := config.kart.weight * (lonAccG * GRAVITY) +
          0.5 * calculateAirDensity config.runConditions.pressure
            config.runConditions.temperature config.runConditions.humidity *
            config.kart.frontalArea * config.kart.dragCoefficient *
            (speedKmh / 3.6) * (speedKmh / 3.6) +
          config.kart.weight * GRAVITY *
            (config.tyre.rollingCoeff1 +
              config.tyre.rollingCoeff2 * (speedKmh / 3.6) * (speedKmh / 3.6)) +
          2 * config.tyre.inertia * (lonAccG * GRAVITY / (config.tyre.diameter / 2000)) /
            (config.tyre.diameter / 2000) +
          config.engine.inertia *
            (lonAccG * GRAVITY / (config.tyre.diameter / 2000) * tt) * tt /
            (config.tyre.diameter / 2000)
        if wheelForce * (speedKmh / 3.6) / CV_TO_WATTS_R < 0 ∨
            100 < wheelForce * (speedKmh / 3.6) / CV_TO_WATTS_R then none
        else some
          { rpm := rpm
            speed := speedKmh
            power := wheelForce * (speedKmh / 3.6) / CV_TO_WATTS_R
            torque := wheelForce * (config.tyre.diameter / 2000)
            gear := detectGear rpm (speedKmh / 3.6) (config.tyre.diameter / 2000)
              (config.finalDrive.rearSprocket / config.finalDrive.frontSprocket) config.engine
            tempHead := jsOrZeroR tH
            tempCool := jsOrZeroR tC
            tempExhaust := jsOrZeroR tE
            lambda := jsOrZeroR lam }) := rfl
  rw [hunfold]
  unfold specAccepts
  dsimp only
  set d := detectGear rpm (speedKmh / 3.6) (config.tyre.diameter / 2000)
    (config.finalDrive.rearSprocket / config.finalDrive.frontSprocket) config.engine with hd
  set tt := getTotalRatioOf d
    (config.finalDrive.rearSprocket / config.finalDrive.frontSprocket) config.engine with htt
  set F := config.kart.weight * (lonAccG * GRAVITY) +
    0.5 * calculateAirDensity config.runConditions.pressure
      config.runConditions.temperature config.runConditions.humidity *
      config.kart.frontalArea * config.kart.dragCoefficient *
      (speedKmh / 3.6) * (speedKmh / 3.6) +
    config.kart.weight * GRAVITY *
      (config.tyre.rollingCoeff1 +
        config.tyre.rollingCoeff2 * (speedKmh / 3.6) * (speedKmh / 3.6)) +
    2 * config.tyre.inertia * (lonAccG * GRAVITY / (config.tyre.diameter / 2000)) /
      (config.tyre.diameter / 2000) +
    config.engine.inertia *
      (lonAccG * GRAVITY / (config.tyre.diameter / 2000) * tt) * tt /
      (config.tyre.diameter / 2000) with hF
  by_cases h1 : speedKmh / 3.6 < 5 / 3.6
  · rw [if_pos h1]
    refine ⟨⟨fun h => absurd h (by simp), fun hs => absurd hs.1 (not_le.mpr h1)⟩, ?_⟩
    intro p hp
    exact Option.noConfusion hp
  rw [if_neg h1]
  by_cases h2 : lonAccG * GRAVITY ≤ 0
  · rw [if_pos h2]
    refine ⟨⟨fun h => absurd h (by simp), fun hs => absurd hs.2.1 (not_lt.mpr h2)⟩, ?_⟩
    intro p hp
    exact Option.noConfusion hp
  rw [if_neg h2]
  by_cases h3 : rpm < config.minRpm ∨ config.maxRpm < rpm
  · rw [if_pos h3]
    refine ⟨⟨fun h => absurd h (by simp), fun hs => ?_⟩, ?_⟩
    · rcases h3 with h | h
      · exact absurd hs.2.2.1 (not_le.mpr h)
      · exact absurd hs.2.2.2.1 (not_le.mpr h)
    · intro p hp
      exact Option.noConfusion hp
  rw [if_neg h3]
  by_cases h4 : d = 0
  · rw [if_pos h4]
    refine ⟨⟨fun h => absurd h (by simp), fun hs => absurd h4 hs.2.2.2.2.1⟩, ?_⟩
    intro p hp
    exact Option.noConfusion hp
  rw [if_neg h4]
  have hwf : ∀ g ∈ config.engine.gearbox.gears, ¬(g.input = 0 ∨ g.output = 0) := by
    intro g hgm
    rcases hgears g hgm with ⟨ha, hb⟩
    push_neg
    exact ⟨ha, hb⟩
  have htt0 : ¬tt = 0 := by
    rw [htt]
    refine getTotalRatioOf_ne_zero d _ config.engine hpin hpout
      (div_ne_zero hrear hfront) hgears ?_
    rcases detectGear_range rpm (speedKmh / 3.6) (config.tyre.diameter / 2000)
        (config.finalDrive.rearSprocket / config.finalDrive.frontSprocket)
        config.engine hwf with h0 | hdd | hrange
    · exact absurd (hd.trans h0) h4
    · exact Or.inl hdd
    · exact Or.inr (by rw [hd]; exact hrange)
  rw [if_neg htt0]
  have hpcveq : F * (speedKmh / 3.6) / CV_TO_WATTS_R =
      specWheelPowerCV config GRAVITY speedKmh rpm lonAccG := by
    unfold specWheelPowerCV specWheelForce CV_TO_WATTS_R
    dsimp only
    rw [hF, htt, hd]
    ring
  have htoreq : F * (config.tyre.diameter / 2000) =
      specWheelTorque config GRAVITY speedKmh rpm lonAccG := by
    unfold specWheelTorque specWheelForce
    dsimp only
    rw [hF, htt, hd]
    ring
  by_cases h6 : F * (speedKmh / 3.6) / CV_TO_WATTS_R < 0 ∨
      100 < F * (speedKmh / 3.6) / CV_TO_WATTS_R
  · rw [if_pos h6]
    refine ⟨⟨fun h => absurd h (by simp), fun hs => ?_⟩, ?_⟩
    · rcases h6 with h | h
      · exact absurd (hpcveq ▸ hs.2.2.2.2.2.1) (not_le.mpr h)
      · exact absurd (hpcveq ▸ hs.2.2.2.2.2.2) (not_le.mpr h)
    · intro p hp
      exact Option.noConfusion hp
  · rw [if_neg h6]
    push_neg at h6
    constructor
    · constructor
      · intro _
        exact ⟨not_lt.mp h1, not_le.mp h2, not_lt.mp (not_or.mp h3).1,
          not_lt.mp (not_or.mp h3).2, h4, hpcveq ▸ h6.1, hpcveq ▸ h6.2⟩
      · intro _
        rfl
    · intro p hp
      injection hp with hp
      subst hp
      exact ⟨hpcveq, htoreq⟩

/-- The concrete direct-drive configuration used when checking claim C1
(unit wheel radius, zero frontal area and rolling coefficients, so only the
mass and engine-inertia terms remain). -/
def c1config : AnalysisConfig :=
  { kart := ⟨100, 0, 0⟩
    engine := ⟨0.003, ⟨⟨1, 1⟩, []⟩⟩
    tyre := ⟨2000, 0, 0, 0⟩
    finalDrive := ⟨1, 1⟩
    runConditions := ⟨1013, 20, 50⟩
    minRpm := 1000
    maxRpm := 10000
    filterLevel := 0 }

/-- C1 counterexample: at 36 km/h, 5000 rpm and 1 g the sample is accepted
and the code computes the power with a = 1 · 9.81, value
(100·9.81 + 0.003·9.81)·10/735.5; the claim's formula with 9.80665 gives a
different number. -/
theorem calculatePower_gravity_counterexample :
    (calculatePowerSample c1config 36 5000 1 0 0 0 0).map (·.power) =
      some ((100 * 9.81 + 0.003 * 9.81) * 10 / 735.5) ∧
    specWheelPowerCV c1config 9.80665 36 5000 1 ≠
      (100 * 9.81 + 0.003 * 9.81) * 10 / 735.5 := by
  have hgear : detectGear 5000 (36 / 3.6) (c1config.tyre.diameter / 2000)
      (c1config.finalDrive.rearSprocket / c1config.finalDrive.frontSprocket)
      c1config.engine = 1 := by
    unfold detectGear isDirectDrive c1config
    norm_num
  have hratio : getTotalRatioOf 1
      (c1config.finalDrive.rearSprocket / c1config.finalDrive.frontSprocket)
      c1config.engine = 1 := by
    unfold getTotalRatioOf isDirectDrive c1config
    norm_num
  constructor
  · unfold calculatePowerSample
    rw [if_neg (by norm_num), if_neg (by norm_num [GRAVITY]),
      if_neg (by norm_num [c1config]), if_neg (by rw [hgear]; norm_num)]
    rw [hgear, hratio]
    rw [if_neg (by norm_num)]
    have hsimp : (0.5 : ℝ) * calculateAirDensity c1config.runConditions.pressure
        c1config.runConditions.temperature c1config.runConditions.humidity *
        c1config.kart.frontalArea * c1config.kart.dragCoefficient *
        (36 / 3.6) * (36 / 3.6) = 0 := by
      unfold c1config
      norm_num
    rw [if_neg (by rw [hsimp]; unfold c1config GRAVITY CV_TO_WATTS_R; norm_num)]
    simp only [Option.map_some']
    congr 1
    rw [hsimp]
    unfold c1config GRAVITY CV_TO_WATTS_R
    norm_num
  · unfold specWheelPowerCV specWheelForce
    dsimp only
    rw [hgear, hratio]
    unfold c1config
    norm_num

/-- C1 witness: the amended per-sample theorem applied to the concrete
direct-drive configuration at 36 km/h, 5000 rpm, 1 g. -/
theorem calculatePower_sample_spec_witness :
    c1config.engine.gearbox.primary.input ≠ 0 ∧
    c1config.engine.gearbox.primary.output ≠ 0 ∧
    c1config.finalDrive.frontSprocket ≠ 0 ∧
    c1config.finalDrive.rearSprocket ≠ 0 ∧
    (∀ g ∈ c1config.engine.gearbox.gears, g.input ≠ 0 ∧ g.output ≠ 0) ∧
    (((calculatePowerSample c1config 36 5000 1 0 0 0 0).isSome ↔
        specAccepts c1config GRAVITY 36 5000 1) ∧
      (∀ p, calculatePowerSample c1config 36 5000 1 0 0 0 0 = some p →
        p.power = specWheelPowerCV c1config GRAVITY 36 5000 1 ∧
        p.torque = specWheelTorque c1config GRAVITY 36 5000 1)) :=
  ⟨by norm_num [c1config], by norm_num [c1config], by norm_num [c1config],
    by norm_num [c1config], by simp [c1config],
    calculatePower_sample_spec c1config 36 5000 1 0 0 0 0 (by norm_num [c1config])
      (by norm_num [c1config]) (by norm_num [c1config]) (by norm_num [c1config])
      (by simp [c1config])⟩

/-! ## calibration.ts -/

/-- A 3-vector (device-frame accelerometer reading or derived vector). -/
structure Vec3 where
  x : ℝ
  y : ℝ
  z : ℝ

/-- A 3×3 matrix stored as its three rows, as the source stores arrays of
rows. -/
structure Mat3 where
  r0 : Vec3
  r1 : Vec3
  r2 : Vec3

/-- The calibration record produced by buildCalibrationData. -/
structure CalibrationData where
  gravityVector : Vec3
  forwardVector : Vec3
  rightVector : Vec3
  upVector : Vec3
  rotationMatrix : Mat3
  qualityScore : ℝ

/-- GRAVITY_SAMPLES: minimum samples of the gravity phase. -/
def GRAVITY_SAMPLES : ℕ := 150

/-- FORWARD_SAMPLES: minimum samples of the forward phase. -/
def FORWARD_SAMPLES : ℕ := 250

/-- MIN_ACCELERATION_FOR_FORWARD threshold (m/s²). -/
def MIN_ACCELERATION_FOR_FORWARD : ℝ := 0.5

/-- average over reals (0 for the empty list). -/
noncomputable def averageR (arr : List ℝ) : ℝ :=
  if arr.length = 0 then 0 else arr.sum / arr.length

/-- magnitude: Euclidean norm of a 3-vector. -/
noncomputable def magnitude (v : Vec3) : ℝ :=
  Real.sqrt (v.x ^ 2 + v.y ^ 2 + v.z ^ 2)

/-- normalize: scale to unit length, returning the zero vector at zero
magnitude. -/
noncomputable def normalize (v : Vec3) : Vec3 :=
  if magnitude v = 0 then ⟨0, 0, 0⟩
  else ⟨v.x / magnitude v, v.y / magnitude v, v.z / magnitude v⟩

/-- dot product. -/
noncomputable def dotV (a b : Vec3) : ℝ := a.x * b.x + a.y * b.y + a.z * b.z

/-- cross product. -/
noncomputable def crossV (a b : Vec3) : Vec3 :=
  ⟨a.y * b.z - a.z * b.y, a.z * b.x - a.x * b.z, a.x * b.y - a.y * b.x⟩

/-- computeCovarianceMatrix of mean-centred samples. -/
noncomputable def computeCovarianceMatrix (samples : List Vec3) : Mat3 :=
  let n : ℝ := samples.length
  let xx := (samples.map (fun s => s.x * s.x)).sum
  let xy := (samples.map (fun s => s.x * s.y)).sum
  let xz := (samples.map (fun s => s.x * s.z)).sum
  let yy := (samples.map (fun s => s.y * s.y)).sum
  let yz := (samples.map (fun s => s.y * s.z)).sum
  let zz := (samples.map (fun s => s.z * s.z)).sum
  ⟨⟨xx / n, xy / n, xz / n⟩, ⟨xy / n, yy / n, yz / n⟩, ⟨xz / n, yz / n, zz / n⟩⟩

/-- Matrix-vector product (row dot vector). -/
noncomputable def mulMatVec (m : Mat3) (v : Vec3) : Vec3 :=
  ⟨m.r0.x * v.x + m.r0.y * v.y + m.r0.z * v.z,
   m.r1.x * v.x + m.r1.y * v.y + m.r1.z * v.z,
   m.r2.x * v.x + m.r2.y * v.y + m.r2.z * v.z⟩

/-- powerIteration: 50 renormalised matrix-vector steps from (1,1,1). -/
noncomputable def powerIteration (matrix : Mat3) (iterations : ℕ := 50) : Vec3 :=
  (fun v => normalize (mulMatVec matrix v))^[iterations] (normalize ⟨1, 1, 1⟩)

/-- computeGravityVector: mean of the gravity-phase samples, requiring the
phase minimum. -/
noncomputable def computeGravityVector (gravitySamples : List Vec3) : Option Vec3 :=
  if gravitySamples.length < GRAVITY_SAMPLES then none
  else some ⟨averageR (gravitySamples.map (·.x)), averageR (gravitySamples.map (·.y)),
    averageR (gravitySamples.map (·.z))⟩

/-- computeForwardFromPCA: centre, covariance, power iteration, sign fix. -/
noncomputable def computeForwardFromPCA (samples : List Vec3) : Option Vec3 :=
  if samples.length < 10 then none
  else
    let meanX := averageR (samples.map (·.x))
    let meanY := averageR (samples.map (·.y))
    let meanZ := averageR (samples.map (·.z))
    let centered := samples.map (fun s => Vec3.mk (s.x - meanX) (s.y - meanY) (s.z - meanZ))
    let cov := computeCovarianceMatrix centered
    let principal := powerIteration cov
    if meanX * principal.x + meanY * principal.y + meanZ * principal.z < 0 then
      some ⟨-principal.x, -principal.y, -principal.z⟩
    else some principal

/-- computeForwardVector: gravity-removed linear acceleration, filter to the
significant samples, PCA (falling back to all samples when fewer than 20
are significant), requiring the phase minimum. -/
noncomputable def computeForwardVector (gravityVector : Vec3)
    (forwardSamples : List Vec3) : Option Vec3 :=
  if forwardSamples.length < FORWARD_SAMPLES then none
  else
    let linearAccel := forwardSamples.map (fun s =>
      Vec3.mk (s.x - gravityVector.x) (s.y - gravityVector.y) (s.z - gravityVector.z))
    let significantSamples := linearAccel.filter (fun s =>
      decide (MIN_ACCELERATION_FOR_FORWARD < magnitude s))
    if significantSamples.length < 20 then computeForwardFromPCA linearAccel
    else computeForwardFromPCA significantSamples

/-- buildCalibrationData: gravity mean, PCA forward, Gram-Schmidt
orthonormalisation, rotation matrix whose columns are (f, r, u), and the
three-part quality score. -/
noncomputable def buildCalibrationData (gravitySamples forwardSamples : List Vec3) :
    Option CalibrationData :=
  match computeGravityVector gravitySamples with
  | none => none
  | some gravityVector =>
    match computeForwardVector gravityVector forwardSamples with
    | none => none
    | some forwardVector =>
      let gravityMag := magnitude gravityVector
      let upVector : Vec3 := ⟨-gravityVector.x / gravityMag, -gravityVector.y / gravityMag,
        -gravityVector.z / gravityMag⟩
      let forwardDotUp := dotV forwardVector upVector
      let forwardOrthogonal := normalize ⟨forwardVector.x - forwardDotUp * upVector.x,
        forwardVector.y - forwardDotUp * upVector.y,
        forwardVector.z - forwardDotUp * upVector.z⟩
      let rightVector := crossV forwardOrthogonal upVector
      let rotationMatrix : Mat3 :=
        ⟨⟨forwardOrthogonal.x, rightVector.x, upVector.x⟩,
         ⟨forwardOrthogonal.y, rightVector.y, upVector.y⟩,
         ⟨forwardOrthogonal.z, rightVector.z, upVector.z⟩⟩
      let gravityQuality := 1 - min 1 (|gravityMag - GRAVITY| / 2)
      let forwardQuality := min 1 (magnitude forwardVector / 2)
      let orthogonalityQuality := 1 - |forwardDotUp|
      some
        { gravityVector := gravityVector
          forwardVector := forwardOrthogonal
          rightVector := rightVector
          upVector := upVector
          rotationMatrix := rotationMatrix
          qualityScore := (gravityQuality + forwardQuality + orthogonalityQuality) / 3 }

/-- The kart-frame acceleration triple returned by transformAcceleration. -/
structure KartAccel where
  forward : ℝ
  right : ℝ
  up : ℝ

/-- transformAcceleration: remove gravity, then apply the transpose of the
stored rotation matrix (columns become rows). -/
noncomputable def transformAcceleration (reading : Vec3)
    (calibration : CalibrationData) : KartAccel :=
  let linearX := reading.x - calibration.gravityVector.x
  let linearY := reading.y - calibration.gravityVector.y
  let linearZ := reading.z - calibration.gravityVector.z
  let m := calibration.rotationMatrix
  { forward := m.r0.x * linearX + m.r1.x * linearY + m.r2.x * linearZ
    right := m.r0.y * linearX + m.r1.y * linearY + m.r2.y * linearZ
    up := m.r0.z * linearX + m.r1.z * linearY + m.r2.z * linearZ }

/-- The two sample buffers of the CalibrationManager state machine. -/
structure CalibrationManagerState where
  gravitySamples : List Vec3
  forwardSamples : List Vec3

/-- addGravitySample: push a reading into the gravity buffer. -/
def addGravitySample (s : CalibrationManagerState) (reading : Vec3) :
    CalibrationManagerState :=
  { s with gravitySamples := s.gravitySamples ++ [reading] }

/-- addForwardSample: push a reading into the forward buffer. -/
def addForwardSample (s : CalibrationManagerState) (reading : Vec3) :
    CalibrationManagerState :=
  { s with forwardSamples := s.forwardSamples ++ [reading] }

/-- reset: discard both buffers. -/
def resetManager (_ : CalibrationManagerState) : CalibrationManagerState := ⟨[], []⟩

/-- buildCalibrationData as invoked on the manager's state. -/
noncomputable def buildFromState (s : CalibrationManagerState) : Option CalibrationData :=
  buildCalibrationData s.gravitySamples s.forwardSamples

/-- Componentwise difference of two 3-vectors. -/
noncomputable def subV (a b : Vec3) : Vec3 := ⟨a.x - b.x, a.y - b.y, a.z - b.z⟩

/-- Column i of a row-stored 3×3 matrix. -/
noncomputable def matCol0 (m : Mat3) : Vec3 := ⟨m.r0.x, m.r1.x, m.r2.x⟩

/-- Column 1 of a row-stored 3×3 matrix. -/
noncomputable def matCol1 (m : Mat3) : Vec3 := ⟨m.r0.y, m.r1.y, m.r2.y⟩

/-- Column 2 of a row-stored 3×3 matrix. -/
noncomputable def matCol2 (m : Mat3) : Vec3 := ⟨m.r0.z, m.r1.z, m.r2.z⟩

lemma computeForwardFromPCA_isSome (samples : List Vec3) (h : 10 ≤ samples.length) :
    (computeForwardFromPCA samples).isSome = true := by
  unfold computeForwardFromPCA
  rw [if_neg (by omega)]
  dsimp only
  split <;> rfl

lemma computeForwardVector_isSome (g : Vec3) (f : List Vec3)
    (h : FORWARD_SAMPLES ≤ f.length) : (computeForwardVector g f).isSome = true := by
  unfold computeForwardVector
  rw [if_neg (by omega)]
  dsimp only
  split
  · apply computeForwardFromPCA_isSome
    rw [List.length_map]
    unfold FORWARD_SAMPLES at h
    omega
  · apply computeForwardFromPCA_isSome
    omega

/-- C8: buildCalibrationData yields no calibration exactly when the gravity
buffer has fewer than 150 samples or the forward buffer fewer than 250;
reset empties both buffers, after which the build fails again. -/
theorem buildCalibrationData_failure :
    ∀ (s : CalibrationManagerState),
      (buildFromState s = none ↔
        s.gravitySamples.length < GRAVITY_SAMPLES ∨
          s.forwardSamples.length < FORWARD_SAMPLES) ∧
      (resetManager s).gravitySamples = [] ∧ (resetManager s).forwardSamples = [] ∧
      buildFromState (resetManager s) = none := by
  intro s
  have hgrav_some : ∀ g : List Vec3, ¬g.length < GRAVITY_SAMPLES →
      computeGravityVector g = some ⟨averageR (g.map (·.x)), averageR (g.map (·.y)),
        averageR (g.map (·.z))⟩ := by
    intro g hg
    unfold computeGravityVector
    rw [if_neg hg]
  refine ⟨?_, rfl, rfl, ?_⟩
  · unfold buildFromState
    constructor
    · intro hn
      by_contra hc
      push_neg at hc
      obtain ⟨hg, hf⟩ := hc
      have h1 := hgrav_some s.gravitySamples (by omega)
      have h2 := computeForwardVector_isSome ⟨averageR (s.gravitySamples.map (·.x)),
        averageR (s.gravitySamples.map (·.y)), averageR (s.gravitySamples.map (·.z))⟩
        s.forwardSamples hf
      obtain ⟨fv, hfv⟩ := Option.isSome_iff_exists.mp h2
      unfold buildCalibrationData at hn
      rw [h1] at hn
      simp only [hfv] at hn
      exact Option.noConfusion hn
    · intro hor
      rcases hor with hg | hf
      · unfold buildCalibrationData computeGravityVector
        rw [if_pos hg]
      · by_cases hg : s.gravitySamples.length < GRAVITY_SAMPLES
        · unfold buildCalibrationData computeGravityVector
          rw [if_pos hg]
        · have h1 := hgrav_some s.gravitySamples hg
          have h2 : computeForwardVector ⟨averageR (s.gravitySamples.map (·.x)),
              averageR (s.gravitySamples.map (·.y)), averageR (s.gravitySamples.map (·.z))⟩
              s.forwardSamples = none := by
            unfold computeForwardVector
            rw [if_pos hf]
          unfold buildCalibrationData
          rw [h1]
          simp only [h2]
  · unfold buildFromState resetManager buildCalibrationData computeGravityVector
    rw [if_pos (by unfold GRAVITY_SAMPLES; simp)]

/-- C5 (amended): in every produced calibration the stored 3×3 matrix has
f, r, u as its COLUMNS (not rows), and transformAcceleration applies its
transpose, so the returned (forward, right, up) components are the dot
products of the gravity-removed reading with f, r and u. -/
theorem buildCalibrationData_matrix_columns :
    ∀ (gravB fwdB : List Vec3) (cal : CalibrationData),
      buildCalibrationData gravB fwdB = some cal →
      matCol0 cal.rotationMatrix = cal.forwardVector ∧
      matCol1 cal.rotationMatrix = cal.rightVector ∧
      matCol2 cal.rotationMatrix = cal.upVector ∧
      (∀ reading : Vec3,
        (transformAcceleration reading cal).forward =
          dotV (subV reading cal.gravityVector) cal.forwardVector ∧
        (transformAcceleration reading cal).right =
          dotV (subV reading cal.gravityVector) cal.rightVector ∧
        (transformAcceleration reading cal).up =
          dotV (subV reading cal.gravityVector) cal.upVector) := by
  intro gravB fwdB cal h
  unfold buildCalibrationData at h
  cases hg : computeGravityVector gravB with
  | none => rw [hg] at h; exact Option.noConfusion h
  | some gv =>
    rw [hg] at h
    cases hf : computeForwardVector gv fwdB with
    | none =>
      simp only [hf] at h
      exact Option.noConfusion h
    | some fv =>
      simp only [hf] at h
      injection h with h
      subst h
      refine ⟨rfl, rfl, rfl, ?_⟩
      intro reading
      refine ⟨?_, ?_, ?_⟩ <;>
        · unfold transformAcceleration dotV subV
          dsimp only
          ring

/-- C6 (amended): whenever buildCalibrationData produces a calibration whose
forward and up vectors are nonzero (nonzero gravity mean and nonzero
Gram-Schmidt residual), the vectors f, r, u have norm exactly 1 — within
1e-6 — and the pairwise dot products f·r, f·u, r·u are exactly 0, below
1e-6. -/
theorem buildCalibrationData_orthonormal :
    ∀ (gravB fwdB : List Vec3) (cal : CalibrationData),
      buildCalibrationData gravB fwdB = some cal →
      cal.forwardVector ≠ ⟨0, 0, 0⟩ → cal.upVector ≠ ⟨0, 0, 0⟩ →
      |magnitude cal.forwardVector - 1| ≤ 1 / 1000000 ∧
      |magnitude cal.rightVector - 1| ≤ 1 / 1000000 ∧
      |magnitude cal.upVector - 1| ≤ 1 / 1000000 ∧
      |dotV cal.forwardVector cal.rightVector| < 1 / 1000000 ∧
      |dotV cal.forwardVector cal.upVector| < 1 / 1000000 ∧
      |dotV cal.rightVector cal.upVector| < 1 / 1000000 := by
  intro gravB fwdB cal h hfne hune
  unfold buildCalibrationData at h
  cases hg : computeGravityVector gravB with
  | none => rw [hg] at h; exact Option.noConfusion h
  | some gv =>
    rw [hg] at h
    cases hf : computeForwardVector gv fwdB with
    | none =>
      simp only [hf] at h
      exact Option.noConfusion h
    | some fv =>
      simp only [hf] at h
      injection h with h
      subst h
      dsimp only at hfne hune ⊢
      set mg := magnitude gv with hmg
      set u : Vec3 := ⟨-gv.x / mg, -gv.y / mg, -gv.z / mg⟩ with hu
      set d := dotV fv u with hd
      set w : Vec3 := ⟨fv.x - d * u.x, fv.y - d * u.y, fv.z - d * u.z⟩ with hw
      -- nonzero gravity magnitude
      have hmgne : mg ≠ 0 := by
        intro h0
        apply hune
        rw [hu, h0]
        simp
      have hSg : 0 ≤ gv.x ^ 2 + gv.y ^ 2 + gv.z ^ 2 := by positivity
      have hmgsq : mg ^ 2 = gv.x ^ 2 + gv.y ^ 2 + gv.z ^ 2 := by
        rw [hmg]
        unfold magnitude
        exact Real.sq_sqrt hSg
      have husum : u.x ^ 2 + u.y ^ 2 + u.z ^ 2 = 1 := by
        rw [hu]
        dsimp only
        have : (-gv.x / mg) ^ 2 + (-gv.y / mg) ^ 2 + (-gv.z / mg) ^ 2 =
            (gv.x ^ 2 + gv.y ^ 2 + gv.z ^ 2) / mg ^ 2 := by ring
        rw [this, ← hmgsq, div_self (pow_ne_zero 2 hmgne)]
      -- nonzero residual
      have hmwne : magnitude w ≠ 0 := by
        intro h0
        apply hfne
        unfold normalize
        rw [if_pos h0]
      have hSw : 0 ≤ w.x ^ 2 + w.y ^ 2 + w.z ^ 2 := by positivity
      have hmwsq : magnitude w ^ 2 = w.x ^ 2 + w.y ^ 2 + w.z ^ 2 := by
        unfold magnitude
        exact Real.sq_sqrt hSw
      have hnw : normalize w = ⟨w.x / magnitude w, w.y / magnitude w, w.z / magnitude w⟩ := by
        unfold normalize
        rw [if_neg hmwne]
      have hfsum : (normalize w).x ^ 2 + (normalize w).y ^ 2 + (normalize w).z ^ 2 = 1 := by
        rw [hnw]
        dsimp only
        have : (w.x / magnitude w) ^ 2 + (w.y / magnitude w) ^ 2 + (w.z / magnitude w) ^ 2 =
            (w.x ^ 2 + w.y ^ 2 + w.z ^ 2) / magnitude w ^ 2 := by ring
        rw [this, ← hmwsq, div_self (pow_ne_zero 2 hmwne)]
      have hwu : dotV w u = 0 := by
        rw [hw]
        unfold dotV
        dsimp only
        have : (fv.x - d * u.x) * u.x + (fv.y - d * u.y) * u.y + (fv.z - d * u.z) * u.z =
            (fv.x * u.x + fv.y * u.y + fv.z * u.z) -
              d * (u.x ^ 2 + u.y ^ 2 + u.z ^ 2) := by ring
        rw [this, husum, hd]
        unfold dotV
        ring
      have hfu : dotV (normalize w) u = 0 := by
        rw [hnw]
        unfold dotV
        dsimp only
        unfold dotV at hwu
        have : w.x / magnitude w * u.x + w.y / magnitude w * u.y + w.z / magnitude w * u.z =
            (w.x * u.x + w.y * u.y + w.z * u.z) / magnitude w := by ring
        rw [this, hwu, zero_div]
      set f := normalize w with hfdef
      set r := crossV f u with hr
      have hrsum : r.x ^ 2 + r.y ^ 2 + r.z ^ 2 = 1 := by
        rw [hr]
        unfold crossV
        dsimp only
        have hlag : (f.y * u.z - f.z * u.y) ^ 2 + (f.z * u.x - f.x * u.z) ^ 2 +
            (f.x * u.y - f.y * u.x) ^ 2 =
            (f.x ^ 2 + f.y ^ 2 + f.z ^ 2) * (u.x ^ 2 + u.y ^ 2 + u.z ^ 2) -
              (f.x * u.x + f.y * u.y + f.z * u.z) ^ 2 := by ring
        rw [hlag, hfsum, husum]
        unfold dotV at hfu
        rw [hfu]
        ring
      have hmagf : magnitude f = 1 := by
        unfold magnitude
        rw [hfsum, Real.sqrt_one]
      have hmagu : magnitude u = 1 := by
        unfold magnitude
        rw [husum, Real.sqrt_one]
      have hmagr : magnitude r = 1 := by
        unfold magnitude
        rw [hrsum, Real.sqrt_one]
      have hfr : dotV f r = 0 := by
        rw [hr]
        unfold dotV crossV
        dsimp only
        ring
      have hru : dotV r u = 0 := by
        rw [hr]
        unfold dotV crossV
        dsimp only
        ring
      rw [hmagf, hmagr, hmagu, hfr, hfu, hru]
      norm_num

/-! ## Concrete calibration runs -/

lemma averageR_replicate (n : ℕ) (c : ℝ) (hn : n ≠ 0) :
    averageR (List.replicate n c) = c := by
  unfold averageR
  rw [List.length_replicate, List.sum_replicate, if_neg hn, nsmul_eq_mul]
  field_simp

lemma magnitude_00z (z : ℝ) (hz : 0 ≤ z) : magnitude ⟨0, 0, z⟩ = z := by
  unfold magnitude
  dsimp only
  rw [show (0 : ℝ) ^ 2 + 0 ^ 2 + z ^ 2 = z ^ 2 by ring]
  exact Real.sqrt_sq hz

lemma normalize_zero : normalize ⟨0, 0, 0⟩ = ⟨0, 0, 0⟩ := by
  unfold normalize
  rw [if_pos]
  rw [magnitude_00z 0 le_rfl]

/-- The gravity-phase buffer: 150 copies of (0, 0, 9.81). -/
noncomputable def grav150 : List Vec3 := List.replicate 150 ⟨0, 0, 9.81⟩

/-- The degenerate forward buffer: 250 copies of (2, 0, 9.81) (constant
acceleration, zero covariance). -/
noncomputable def fwdDeg : List Vec3 := List.replicate 250 ⟨2, 0, 9.81⟩

/-- The calibration the code produces on the degenerate buffers: gravity
(0, 0, 9.81), zero forward and right vectors, up (0, 0, -1), quality 2/3. -/
noncomputable def calDeg : CalibrationData :=
  ⟨⟨0, 0, 9.81⟩, ⟨0, 0, 0⟩, ⟨0, 0, 0⟩, ⟨0, 0, -1⟩,
    ⟨⟨0, 0, 0⟩, ⟨0, 0, 0⟩, ⟨0, 0, -1⟩⟩, 2 / 3⟩

lemma gravity_eval : computeGravityVector grav150 = some ⟨0, 0, 9.81⟩ := by
  unfold computeGravityVector grav150 GRAVITY_SAMPLES
  rw [if_neg (by simp)]
  simp only [List.map_replicate]
  rw [averageR_replicate 150 _ (by norm_num), averageR_replicate 150 _ (by norm_num)]

lemma powerIteration_zeroMatrix :
    powerIteration ⟨⟨0, 0, 0⟩, ⟨0, 0, 0⟩, ⟨0, 0, 0⟩⟩ 50 = ⟨0, 0, 0⟩ := by
  unfold powerIteration
  have hstep : ∀ v, normalize
      (mulMatVec ⟨⟨0, 0, 0⟩, ⟨0, 0, 0⟩, ⟨0, 0, 0⟩⟩ v) = (⟨0, 0, 0⟩ : Vec3) := by
    intro v
    have hmv : mulMatVec ⟨⟨0, 0, 0⟩, ⟨0, 0, 0⟩, ⟨0, 0, 0⟩⟩ v = (⟨0, 0, 0⟩ : Vec3) := by
      unfold mulMatVec
      dsimp only
      norm_num
    rw [hmv, normalize_zero]
  rw [show (50 : ℕ) = 49 + 1 from rfl, Function.iterate_succ_apply]
  rw [hstep]
  exact @Function.iterate_fixed Vec3
    (fun v => normalize (mulMatVec ⟨⟨0, 0, 0⟩, ⟨0, 0, 0⟩, ⟨0, 0, 0⟩⟩ v))
    ⟨0, 0, 0⟩ (hstep _) 49

lemma pca_deg_eval : computeForwardFromPCA (List.replicate 250 ⟨2, 0, 0⟩) = some ⟨0, 0, 0⟩ := by
  unfold computeForwardFromPCA
  rw [if_neg (by simp)]
  dsimp only
  simp only [List.map_replicate]
  rw [averageR_replicate 250 _ (by norm_num), averageR_replicate 250 _ (by norm_num)]
  have hcov : computeCovarianceMatrix (List.replicate 250 (⟨2 - 2, 0 - 0, 0 - 0⟩ : Vec3)) =
      ⟨⟨0, 0, 0⟩, ⟨0, 0, 0⟩, ⟨0, 0, 0⟩⟩ := by
    unfold computeCovarianceMatrix
    simp only [List.map_replicate, List.sum_replicate, List.length_replicate]
    norm_num
  rw [hcov, powerIteration_zeroMatrix]
  rw [if_neg (by norm_num)]

lemma normalize_congr_zero (v : Vec3) (h : v = ⟨0, 0, 0⟩) : normalize v = ⟨0, 0, 0⟩ :=
  h ▸ normalize_zero

lemma forward_deg_eval : computeForwardVector ⟨0, 0, 9.81⟩ fwdDeg = some ⟨0, 0, 0⟩ := by
  unfold computeForwardVector fwdDeg FORWARD_SAMPLES MIN_ACCELERATION_FOR_FORWARD
  rw [if_neg (by simp)]
  dsimp only
  simp only [List.map_replicate]
  have hmagdiff : magnitude ⟨2 - 0, 0 - 0, 9.81 - 9.81⟩ = 2 := by
    unfold magnitude
    dsimp only
    rw [show ((2 : ℝ) - 0) ^ 2 + (0 - 0) ^ 2 + (9.81 - 9.81) ^ 2 = 2 ^ 2 by norm_num]
    exact Real.sqrt_sq (by norm_num)
  have hfilter : List.filter (fun s => decide ((0.5 : ℝ) < magnitude s))
      (List.replicate 250 ⟨2 - 0, 0 - 0, 9.81 - 9.81⟩) =
      List.replicate 250 ⟨2 - 0, 0 - 0, 9.81 - 9.81⟩ := by
    apply List.filter_eq_self.mpr
    intro b hb
    rw [List.eq_of_mem_replicate hb]
    rw [decide_eq_true_eq, hmagdiff]
    norm_num
  rw [hfilter]
  rw [if_neg (by simp)]
  have he : (⟨2 - 0, 0 - 0, 9.81 - 9.81⟩ : Vec3) = ⟨2, 0, 0⟩ := by
    simp only [Vec3.mk.injEq]
    norm_num
  rw [he, pca_deg_eval]

lemma build_deg_eval : buildCalibrationData grav150 fwdDeg = some calDeg := by
  unfold buildCalibrationData
  rw [gravity_eval]
  dsimp only
  rw [forward_deg_eval]
  dsimp only
  rw [magnitude_00z 9.81 (by norm_num)]
  congr 1
  have hdot0 : dotV ⟨0, 0, 0⟩ ⟨-0 / 9.81, -0 / 9.81, -9.81 / 9.81⟩ = 0 := by
    unfold dotV
    dsimp only
    ring
  rw [hdot0]
  have harg : (⟨0 - 0 * (-0 / 9.81), 0 - 0 * (-0 / 9.81), 0 - 0 * (-9.81 / 9.81)⟩ : Vec3) =
      (⟨0, 0, 0⟩ : Vec3) := by
    simp only [Vec3.mk.injEq]
    norm_num
  rw [harg, normalize_zero]
  have hcross0 : crossV ⟨0, 0, 0⟩ ⟨-0 / 9.81, -0 / 9.81, -9.81 / 9.81⟩ = (⟨0, 0, 0⟩ : Vec3) := by
    unfold crossV
    dsimp only
    simp only [Vec3.mk.injEq]
    norm_num
  rw [hcross0, magnitude_00z 0 le_rfl]
  unfold calDeg GRAVITY
  simp only [CalibrationData.mk.injEq, Mat3.mk.injEq, Vec3.mk.injEq]
  norm_num [min_def]

/-- C6 counterexample: on 150 gravity readings (0, 0, 9.81) and 250 constant
forward readings (2, 0, 9.81) the PCA degenerates (zero covariance), the
code still returns a calibration, and its forward vector is the zero vector,
whose norm 0 is not within 1e-6 of 1. -/
theorem buildCalibrationData_orthonormal_counterexample :
    buildCalibrationData grav150 fwdDeg = some calDeg ∧
    ¬(|magnitude calDeg.forwardVector - 1| ≤ 1 / 1000000) := by
  refine ⟨build_deg_eval, ?_⟩
  unfold calDeg
  dsimp only
  rw [magnitude_00z 0 le_rfl]
  norm_num

lemma averageR_append_replicate (m n : ℕ) (a b : ℝ) (h : m + n ≠ 0) :
    averageR (List.replicate m a ++ List.replicate n b) =
      ((m : ℝ) * a + (n : ℝ) * b) / ((m : ℝ) + (n : ℝ)) := by
  unfold averageR
  rw [List.length_append, List.sum_append, List.length_replicate, List.length_replicate,
    List.sum_replicate, List.sum_replicate, nsmul_eq_mul, nsmul_eq_mul,
    if_neg (by omega)]
  push_cast
  ring_nf

lemma normalize_34 (c : ℝ) (hc : 0 < c) :
    normalize ⟨3 * c, 4 * c, 0⟩ = ⟨3 / 5, 4 / 5, 0⟩ := by
  have hmagv : magnitude ⟨3 * c, 4 * c, 0⟩ = 5 * c := by
    unfold magnitude
    dsimp only
    rw [show (3 * c) ^ 2 + (4 * c) ^ 2 + (0 : ℝ) ^ 2 = (5 * c) ^ 2 by ring]
    exact Real.sqrt_sq (by positivity)
  unfold normalize
  rw [hmagv, if_neg (by positivity)]
  dsimp only
  simp only [Vec3.mk.injEq]
  have hc5 : (5 : ℝ) * c ≠ 0 := by positivity
  refine ⟨?_, ?_, by rw [zero_div]⟩ <;>
    · field_simp
      ring

lemma powerIteration_good :
    powerIteration ⟨⟨9, 12, 0⟩, ⟨12, 16, 0⟩, ⟨0, 0, 0⟩⟩ 50 = ⟨3 / 5, 4 / 5, 0⟩ := by
  unfold powerIteration
  have hs : (0 : ℝ) < Real.sqrt 3 := Real.sqrt_pos.mpr (by norm_num)
  have hv0 : normalize ⟨1, 1, 1⟩ = ⟨1 / Real.sqrt 3, 1 / Real.sqrt 3, 1 / Real.sqrt 3⟩ := by
    have hm : magnitude ⟨1, 1, 1⟩ = Real.sqrt 3 := by
      unfold magnitude
      norm_num
    unfold normalize
    rw [hm, if_neg (ne_of_gt hs)]
  have hmul : mulMatVec ⟨⟨9, 12, 0⟩, ⟨12, 16, 0⟩, ⟨0, 0, 0⟩⟩
      ⟨1 / Real.sqrt 3, 1 / Real.sqrt 3, 1 / Real.sqrt 3⟩ =
      ⟨3 * (7 * (1 / Real.sqrt 3)), 4 * (7 * (1 / Real.sqrt 3)), 0⟩ := by
    unfold mulMatVec
    dsimp only
    simp only [Vec3.mk.injEq]
    refine ⟨by ring, by ring, by ring⟩
  have hfix : (fun v => normalize
      (mulMatVec ⟨⟨9, 12, 0⟩, ⟨12, 16, 0⟩, ⟨0, 0, 0⟩⟩ v)) (⟨3 / 5, 4 / 5, 0⟩ : Vec3) =
      (⟨3 / 5, 4 / 5, 0⟩ : Vec3) := by
    show normalize (mulMatVec ⟨⟨9, 12, 0⟩, ⟨12, 16, 0⟩, ⟨0, 0, 0⟩⟩ ⟨3 / 5, 4 / 5, 0⟩) = _
    have hmul2 : mulMatVec ⟨⟨9, 12, 0⟩, ⟨12, 16, 0⟩, ⟨0, 0, 0⟩⟩ ⟨3 / 5, 4 / 5, 0⟩ =
        ⟨3 * 5, 4 * 5, 0⟩ := by
      unfold mulMatVec
      dsimp only
      simp only [Vec3.mk.injEq]
      refine ⟨by ring, by ring, by ring⟩
    rw [hmul2, normalize_34 5 (by norm_num)]
  rw [show (50 : ℕ) = 49 + 1 from rfl, Function.iterate_succ_apply, hv0, hmul,
    normalize_34 (7 * (1 / Real.sqrt 3)) (by positivity)]
  exact @Function.iterate_fixed Vec3
    (fun v => normalize (mulMatVec ⟨⟨9, 12, 0⟩, ⟨12, 16, 0⟩, ⟨0, 0, 0⟩⟩ v))
    ⟨3 / 5, 4 / 5, 0⟩ hfix 49

/-- The non-degenerate forward buffer: 125 readings (9, 12, 9.81) and 125
readings (3, 4, 9.81). -/
noncomputable def fwdGood : List Vec3 :=
  List.replicate 125 ⟨9, 12, 9.81⟩ ++ List.replicate 125 ⟨3, 4, 9.81⟩

/-- The calibration the code produces on the non-degenerate buffers. -/
noncomputable def calGood : CalibrationData :=
  ⟨⟨0, 0, 9.81⟩, ⟨3 / 5, 4 / 5, 0⟩, ⟨-(4 / 5), 3 / 5, 0⟩, ⟨0, 0, -1⟩,
    ⟨⟨3 / 5, -(4 / 5), 0⟩, ⟨4 / 5, 3 / 5, 0⟩, ⟨0, 0, -1⟩⟩, 5 / 6⟩

lemma pca_good_eval :
    computeForwardFromPCA (List.replicate 125 ⟨9, 12, 0⟩ ++ List.replicate 125 ⟨3, 4, 0⟩) =
      some ⟨3 / 5, 4 / 5, 0⟩ := by
  unfold computeForwardFromPCA
  rw [if_neg (by simp)]
  dsimp only
  simp only [List.map_append, List.map_replicate]
  rw [averageR_append_replicate 125 125 _ _ (by norm_num),
    averageR_append_replicate 125 125 _ _ (by norm_num),
    averageR_append_replicate 125 125 _ _ (by norm_num)]
  have hmx : (((125 : ℕ) : ℝ) * 9 + ((125 : ℕ) : ℝ) * 3) / (((125 : ℕ) : ℝ) + ((125 : ℕ) : ℝ)) =
      6 := by push_cast; norm_num
  have hmy : (((125 : ℕ) : ℝ) * 12 + ((125 : ℕ) : ℝ) * 4) / (((125 : ℕ) : ℝ) + ((125 : ℕ) : ℝ)) =
      8 := by push_cast; norm_num
  have hmz : (((125 : ℕ) : ℝ) * 0 + ((125 : ℕ) : ℝ) * 0) / (((125 : ℕ) : ℝ) + ((125 : ℕ) : ℝ)) =
      0 := by push_cast; norm_num
  rw [hmx, hmy, hmz]
  have hcov : computeCovarianceMatrix
      (List.replicate 125 (⟨9 - 6, 12 - 8, 0 - 0⟩ : Vec3) ++
        List.replicate 125 (⟨3 - 6, 4 - 8, 0 - 0⟩ : Vec3)) =
      ⟨⟨9, 12, 0⟩, ⟨12, 16, 0⟩, ⟨0, 0, 0⟩⟩ := by
    unfold computeCovarianceMatrix
    simp only [List.map_append, List.map_replicate, List.sum_append, List.sum_replicate,
      List.length_append, List.length_replicate, nsmul_eq_mul]
    simp only [Mat3.mk.injEq, Vec3.mk.injEq]
    push_cast
    norm_num
  rw [hcov, powerIteration_good]
  rw [if_neg (by dsimp only; norm_num)]

lemma forward_good_eval : computeForwardVector ⟨0, 0, 9.81⟩ fwdGood = some ⟨3 / 5, 4 / 5, 0⟩ := by
  unfold computeForwardVector fwdGood FORWARD_SAMPLES MIN_ACCELERATION_FOR_FORWARD
  rw [if_neg (by simp)]
  dsimp only
  simp only [List.map_append, List.map_replicate]
  have he1 : (⟨9 - 0, 12 - 0, 9.81 - 9.81⟩ : Vec3) = ⟨9, 12, 0⟩ := by
    simp only [Vec3.mk.injEq]
    norm_num
  have he2 : (⟨3 - 0, 4 - 0, 9.81 - 9.81⟩ : Vec3) = ⟨3, 4, 0⟩ := by
    simp only [Vec3.mk.injEq]
    norm_num
  rw [he1, he2]
  have hmag1 : magnitude ⟨9, 12, 0⟩ = 15 := by
    unfold magnitude
    dsimp only
    rw [show (9 : ℝ) ^ 2 + 12 ^ 2 + 0 ^ 2 = 15 ^ 2 by norm_num]
    exact Real.sqrt_sq (by norm_num)
  have hmag2 : magnitude ⟨3, 4, 0⟩ = 5 := by
    unfold magnitude
    dsimp only
    rw [show (3 : ℝ) ^ 2 + 4 ^ 2 + 0 ^ 2 = 5 ^ 2 by norm_num]
    exact Real.sqrt_sq (by norm_num)
  have hfilter : List.filter (fun s => decide ((0.5 : ℝ) < magnitude s))
      (List.replicate 125 (⟨9, 12, 0⟩ : Vec3) ++ List.replicate 125 (⟨3, 4, 0⟩ : Vec3)) =
      List.replicate 125 (⟨9, 12, 0⟩ : Vec3) ++ List.replicate 125 (⟨3, 4, 0⟩ : Vec3) := by
    apply List.filter_eq_self.mpr
    intro b hb
    rw [decide_eq_true_eq]
    rcases List.mem_append.mp hb with hb1 | hb1
    · rw [List.eq_of_mem_replicate hb1, hmag1]
      norm_num
    · rw [List.eq_of_mem_replicate hb1, hmag2]
      norm_num
  rw [hfilter]
  rw [if_neg (by simp)]
  exact pca_good_eval

lemma build_good_eval : buildCalibrationData grav150 fwdGood = some calGood := by
  unfold buildCalibrationData
  rw [gravity_eval]
  dsimp only
  rw [forward_good_eval]
  dsimp only
  rw [magnitude_00z 9.81 (by norm_num)]
  congr 1
  have hdotg : dotV ⟨3 / 5, 4 / 5, 0⟩ ⟨-0 / 9.81, -0 / 9.81, -9.81 / 9.81⟩ = 0 := by
    unfold dotV
    dsimp only
    norm_num
  rw [hdotg]
  have harg : (⟨3 / 5 - 0 * (-0 / 9.81), 4 / 5 - 0 * (-0 / 9.81),
      0 - 0 * (-9.81 / 9.81)⟩ : Vec3) = (⟨3 * (1 / 5), 4 * (1 / 5), 0⟩ : Vec3) := by
    simp only [Vec3.mk.injEq]
    norm_num
  rw [harg, normalize_34 (1 / 5) (by norm_num)]
  have hcrossg : crossV ⟨3 / 5, 4 / 5, 0⟩ ⟨-0 / 9.81, -0 / 9.81, -9.81 / 9.81⟩ =
      (⟨-(4 / 5), 3 / 5, 0⟩ : Vec3) := by
    unfold crossV
    dsimp only
    simp only [Vec3.mk.injEq]
    norm_num
  rw [hcrossg]
  have hmagf : magnitude ⟨3 / 5, 4 / 5, 0⟩ = 1 := by
    unfold magnitude
    dsimp only
    rw [show (3 / 5 : ℝ) ^ 2 + (4 / 5) ^ 2 + 0 ^ 2 = 1 ^ 2 by norm_num]
    exact Real.sqrt_sq (by norm_num)
  rw [hmagf]
  unfold calGood GRAVITY
  simp only [CalibrationData.mk.injEq, Mat3.mk.injEq, Vec3.mk.injEq]
  norm_num [min_def]

/-- C5 counterexample: a produced calibration whose rotation matrix's FIRST
ROW (3/5, -4/5, 0) differs from the forward vector (3/5, 4/5, 0): the rows
of M are not (f, r, u). -/
theorem rotationMatrix_rows_counterexample :
    buildCalibrationData grav150 fwdGood = some calGood ∧
    calGood.rotationMatrix.r0 ≠ calGood.forwardVector := by
  refine ⟨build_good_eval, fun h => ?_⟩
  have h2 := congrArg Vec3.y h
  unfold calGood at h2
  norm_num at h2

/-- C5 witness: the amended column/transform theorem applied to the
calibration produced from the concrete non-degenerate buffers. -/
theorem buildCalibrationData_matrix_columns_witness :
    buildCalibrationData grav150 fwdGood = some calGood ∧
    (matCol0 calGood.rotationMatrix = calGood.forwardVector ∧
      matCol1 calGood.rotationMatrix = calGood.rightVector ∧
      matCol2 calGood.rotationMatrix = calGood.upVector ∧
      (∀ reading : Vec3,
        (transformAcceleration reading calGood).forward =
          dotV (subV reading calGood.gravityVector) calGood.forwardVector ∧
        (transformAcceleration reading calGood).right =
          dotV (subV reading calGood.gravityVector) calGood.rightVector ∧
        (transformAcceleration reading calGood).up =
          dotV (subV reading calGood.gravityVector) calGood.upVector)) :=
  ⟨build_good_eval, buildCalibrationData_matrix_columns grav150 fwdGood calGood build_good_eval⟩

/-- C6 witness: the amended orthonormality theorem applied to the
calibration produced from the concrete non-degenerate buffers. -/
theorem buildCalibrationData_orthonormal_witness :
    buildCalibrationData grav150 fwdGood = some calGood ∧
    calGood.forwardVector ≠ (⟨0, 0, 0⟩ : Vec3) ∧ calGood.upVector ≠ (⟨0, 0, 0⟩ : Vec3) ∧
    (|magnitude calGood.forwardVector - 1| ≤ 1 / 1000000 ∧
      |magnitude calGood.rightVector - 1| ≤ 1 / 1000000 ∧
      |magnitude calGood.upVector - 1| ≤ 1 / 1000000 ∧
      |dotV calGood.forwardVector calGood.rightVector| < 1 / 1000000 ∧
      |dotV calGood.forwardVector calGood.upVector| < 1 / 1000000 ∧
      |dotV calGood.rightVector calGood.upVector| < 1 / 1000000) :=
  ⟨build_good_eval,
    fun h => by have hx := congrArg Vec3.x h; unfold calGood at hx; norm_num at hx,
    fun h => by have hz := congrArg Vec3.z h; unfold calGood at hz; norm_num at hz,
    buildCalibrationData_orthonormal grav150 fwdGood calGood build_good_eval
      (fun h => by have hx := congrArg Vec3.x h; unfold calGood at hx; norm_num at hx)
      (fun h => by have hz := congrArg Vec3.z h; unfold calGood at hz; norm_num at hz)⟩

end EngineAnalysis
